import Mathlib

/-!
Verification of the ingestion pipeline of the Canadian patent analyzer
(`pull_patents.py`, class `CanadianPatentFetcher`, together with the schema in
`app.py`).

Shallow embedding conventions:
* SQLite tables are lists of row structures; `INSERT OR REPLACE` is modelled by
  its documented semantics: rows conflicting with the new row on a `PRIMARY KEY`
  or `UNIQUE` constraint are deleted, then the new row is inserted.  For the six
  child tables the only such constraint is the `id INTEGER PRIMARY KEY
  AUTOINCREMENT` column, which the insert statements omit, so a fresh id is
  assigned and no conflict can arise.  For `patents_main` the key is
  `patent_number TEXT PRIMARY KEY` (a SQL `NULL` key bypasses the uniqueness
  check, hence keys are `Option String` and only `some`-keys conflict).
* Python dict rows (`csv.DictReader` output) are association lists from label to
  `Option String` (a missing column is `none`, matching `dict.get`).
* `datetime.now().isoformat()` is a clock string threaded as a parameter.
* Each `save_*` method wraps its work in `try/except` and logs failures; a
  failure before `conn.commit()` leaves the table unchanged.  Whether the
  database layer raises is modelled by a boolean `ok` parameter (oracles in the
  orchestrator's environment).
* External libraries (`csv` readers, `zipfile`, `hashlib.md5`, the network) are
  parameters of an `Env` structure; the repository's own control flow around
  them is embedded in full.
-/

/-- A raw record: a Python dict row; a value of `none` models a value of `None`
or an absent key, so that `recGet` behaves like `dict.get`. -/
abbrev Record := List (String × Option String)

/-- `record.get(k)`: first binding of `k`, `none` when the key is absent or
bound to `None`. -/
def recGet (r : Record) (k : String) : Option String :=
  match r.lookup k with
  | some v => v
  | none => none

/-- Python truthiness of a string-or-None value: `None` and `""` are falsy. -/
def pyTruthy : Option String → Bool
  | none => false
  | some s => !(s == "")

/-- Python `a or b` on string-or-None values: `b` when `a` is falsy. -/
def pyOr (a b : Option String) : Option String :=
  if pyTruthy a then a else b

/-- Python `str.lower()` restricted to ASCII (all tokens matched by the code are
ASCII, and `Char.toLower` agrees with Python there). -/
def toLowerStr (s : String) : String :=
  String.mk (s.data.map Char.toLower)

/-- Substring test on character lists: does `pat` occur contiguously in `s`? -/
def listContainsSub (pat : List Char) : List Char → Bool
  | [] => pat.isEmpty
  | c :: rest => pat.isPrefixOf (c :: rest) || listContainsSub pat rest

/-- Python `pat in s` for strings: contiguous substring test. -/
def containsSub (s pat : String) : Bool :=
  listContainsSub pat.toList s.toList

/-- `determine_file_type` (pull_patents.py:885-904): classify a file inside the
archive by case-insensitive substring match of seven fixed tokens, first match
in source order wins; `"unknown"` when none occurs. -/
def determine_file_type (filename : String) : String :=
  let filename_lower := toLowerStr filename
  if containsSub filename_lower "pt_main" then "main"
  else if containsSub filename_lower "pt_abstract" then "abstract"
  else if containsSub filename_lower "pt_claim" then "claim"
  else if containsSub filename_lower "pt_disclosure" then "disclosure"
  else if containsSub filename_lower "pt_interested_party" then "interested_party"
  else if containsSub filename_lower "pt_ipc_classification" then "ipc_classification"
  else if containsSub filename_lower "pt_priority_claim" then "priority_claim"
  else "unknown"

/-- The seven filename tokens paired with the record kind each one selects, in
the order the source tests them. -/
def tokenKinds : List (String × String) :=
  [("pt_main", "main"), ("pt_abstract", "abstract"), ("pt_claim", "claim"),
   ("pt_disclosure", "disclosure"), ("pt_interested_party", "interested_party"),
   ("pt_ipc_classification", "ipc_classification"),
   ("pt_priority_claim", "priority_claim")]

/-- `s.endswith(suffix)` on strings, character-list based so the kernel can
evaluate it. -/
def strEndsWith (s sfx : String) : Bool :=
  List.isSuffixOf sfx.data s.data

/-- `s.startswith(pat)` on strings, character-list based. -/
def strStartsWith (s pat : String) : Bool :=
  List.isPrefixOf pat.data s.data

/-- A row of `patents_main` (schema in `init_database`, pull_patents.py:62-90).
`patent_number TEXT PRIMARY KEY`; all data columns nullable; `created_at` and
`updated_at` carry clock strings (the SQL `CURRENT_TIMESTAMP` default and the
`datetime.now().isoformat()` argument are both modelled by the caller's clock
parameter). -/
structure MainRow where
  patent_number : Option String
  filing_date : Option String
  grant_date : Option String
  application_status_code : Option String
  application_type_code : Option String
  title_english : Option String
  title_french : Option String
  bibliographic_extract_date : Option String
  country_publication_code : Option String
  document_kind_type : Option String
  examination_request_date : Option String
  filing_country_code : Option String
  language_filing_code : Option String
  license_sale_indicator : Nat
  pct_application_number : Option String
  pct_publication_number : Option String
  pct_publication_date : Option String
  parent_application_number : Option String
  pct_article_22_39_date : Option String
  pct_section_371_date : Option String
  pct_publication_country_code : Option String
  publication_kind_type : Option String
  printed_amended_country_code : Option String
  created_at : String
  updated_at : String
deriving Repr, DecidableEq

/-- A row of one of the six child tables (`patent_abstracts`, `patent_claims`,
`patent_disclosures`, `patent_interested_parties`,
`patent_ipc_classifications`, `patent_priority_claims`).  Each such table has
`id INTEGER PRIMARY KEY AUTOINCREMENT` as its only PRIMARY KEY / UNIQUE
constraint (the FOREIGN KEY is not a uniqueness constraint); the remaining data
columns are kept as an ordered value list, one entry per column of the
corresponding INSERT statement. -/
structure ChildRow where
  id : Nat
  fields : List (Option String)
deriving Repr, DecidableEq

/-- A child table: its rows plus the next AUTOINCREMENT id (SQLite starts
at 1). -/
structure ChildTable where
  rows : List ChildRow
  nextId : Nat
deriving Repr, DecidableEq

def emptyChild : ChildTable := { rows := [], nextId := 1 }

/-- A row of `file_cache` (pull_patents.py:213-221): `url TEXT PRIMARY KEY`,
`processed BOOLEAN DEFAULT FALSE`. -/
structure CacheEntry where
  url : String
  local_path : String
  downloaded_at : String
  file_size : Nat
  processed : Bool
deriving Repr, DecidableEq

/-- A row of `datasets` (pull_patents.py:201-210): `id TEXT PRIMARY KEY`. -/
structure DatasetRow where
  id : Option String
  name : Option String
  title : Option String
  description : Option String
  last_updated : Option String
  processed_at : String
deriving Repr, DecidableEq

/-- The whole mutable world of the fetcher: the SQLite database (`tables` is
the set of table names that exist, plus one field per table created by
`init_database`) and the cache directory on disk (`files`, path ↦ blob).
`patents_legacy` stands for the `patents` table that `save_patents_to_db` and
`get_patent_count` address: `init_database` never creates it, so the field is
only ever touched when `"patents" ∈ tables`. -/
structure Store where
  tables : List String
  patents_main : List MainRow
  patent_abstracts : ChildTable
  patent_claims : ChildTable
  patent_disclosures : ChildTable
  patent_interested_parties : ChildTable
  patent_ipc_classifications : ChildTable
  patent_priority_claims : ChildTable
  datasets : List DatasetRow
  file_cache : List CacheEntry
  patents_legacy : List (List (Option String))
  files : List (String × String)
deriving Repr, DecidableEq

/-- The tables `init_database` (pull_patents.py:53-250) creates.  There is no
`CREATE TABLE` for a table named `patents` (also not in app.py's
`create_database_schema`). -/
def init_database_tables : List String :=
  ["patents_main", "patent_abstracts", "patent_claims", "patent_disclosures",
   "patent_interested_parties", "patent_ipc_classifications",
   "patent_priority_claims", "datasets", "file_cache"]

/-- The store right after `init_database` on a fresh database file. -/
def initStore : Store :=
  { tables := init_database_tables
    patents_main := []
    patent_abstracts := emptyChild
    patent_claims := emptyChild
    patent_disclosures := emptyChild
    patent_interested_parties := emptyChild
    patent_ipc_classifications := emptyChild
    patent_priority_claims := emptyChild
    datasets := []
    file_cache := []
    patents_legacy := []
    files := [] }

/-- Read a blob from the cache directory (`open(path)` / `os.path.exists`). -/
def fsRead (files : List (String × String)) (p : String) : Option String :=
  (files.find? (fun kv => kv.fst == p)).map Prod.snd

/-- Write a blob, overwriting any existing file at the same path. -/
def fsWrite (files : List (String × String)) (p c : String) : List (String × String) :=
  files.filter (fun kv => !(kv.fst == p)) ++ [(p, c)]

/-- Conflict test for a `TEXT PRIMARY KEY` column: SQLite lets `NULL` keys
through without a uniqueness check, so only two equal `some` keys conflict. -/
def textKeyConflict (a b : Option String) : Bool :=
  match a, b with
  | some x, some y => x == y
  | _, _ => false

/-- `INSERT OR REPLACE` into `patents_main`: delete the rows whose
`patent_number` conflicts with the new row's, then insert. -/
def insertOrReplaceMain (t : List MainRow) (r : MainRow) : List MainRow :=
  t.filter (fun q => !(textKeyConflict q.patent_number r.patent_number)) ++ [r]

/-- `INSERT OR REPLACE` into a child table.  The INSERT statements of the six
`save_*` methods do not supply the `id` column, so SQLite assigns the next
AUTOINCREMENT id; no PRIMARY KEY / UNIQUE conflict can arise and the statement
behaves as a plain insert. -/
def insertChildRow (t : ChildTable) (fields : List (Option String)) : ChildTable :=
  { rows := t.rows ++ [{ id := t.nextId, fields := fields }], nextId := t.nextId + 1 }

/-- `INSERT OR REPLACE` into `file_cache`, keyed by `url` (always a non-null
string here). -/
def insertOrReplaceCache (t : List CacheEntry) (e : CacheEntry) : List CacheEntry :=
  t.filter (fun q => !(q.url == e.url)) ++ [e]

/-- `INSERT OR REPLACE` into `datasets`, keyed by `id`. -/
def insertOrReplaceDataset (t : List DatasetRow) (r : DatasetRow) : List DatasetRow :=
  t.filter (fun q => !(textKeyConflict q.id r.id)) ++ [r]


/-- The row `save_main_patents` (pull_patents.py:906-959) builds from one raw
CSV record: every column comes from `record.get` on an exact bilingual label;
the license flag is `1` exactly when the stored string equals `"1"`; the
timestamp columns take the current clock. -/
def mainRowOfRecord (now : String) (r : Record) : MainRow :=
  { patent_number := recGet r "Patent Number - Numéro du brevet"
    filing_date := recGet r "Filing Date - Date de dépôt"
    grant_date := recGet r "Grant Date - Date de l\x27octroi"
    application_status_code := recGet r "Application Status Code - Code du statut de la demande"
    application_type_code := recGet r "Application Type Code - Code du type de la demande"
    title_english := recGet r "Application/Patent Title English - Demande/Titre anglais du brevet"
    title_french := recGet r "Application/Patent Title French - Demande/Titre français du brevet"
    bibliographic_extract_date := recGet r "Bibliographic File Extract Date - Date d\x27extraction du fichier bibliographique"
    country_publication_code := recGet r "Country of Publication Code - Code du pays de publication"
    document_kind_type := recGet r "Document Kind Type - Genre du type de document"
    examination_request_date := recGet r "Examination Request Date - Date de la demande d\x27examen"
    filing_country_code := recGet r "Filing Country Code - Code du pays de dépôt"
    language_filing_code := recGet r "Language of Filing Code - Langue du dépôt de la demande"
    license_sale_indicator :=
      if recGet r "License For Sale Indicator - Indicateur de la licence de vente" == some "1" then 1 else 0
    pct_application_number := recGet r "PCT Application Number - Numéro de demande du TCMB"
    pct_publication_number := recGet r "PCT Publication Number - Numéro de publication du TCMB"
    pct_publication_date := recGet r "PCT Publication Date - Date de publication du TCMB"
    parent_application_number := recGet r "Parent Application Number - Numéro de la demande principale"
    pct_article_22_39_date := recGet r "PCT Article 22-39 fulfilled Date - Date d\x27accomplissement des articles 22 à 29 du TCMB"
    pct_section_371_date := recGet r "PCT Section 371 Date - Date de l\x27article 371 du TCMB"
    pct_publication_country_code := recGet r "PCT Publication Country Code - Code du pays de publication du TCMB"
    publication_kind_type := recGet r "Publication Kind Type - Genre de type de publication"
    printed_amended_country_code := recGet r "Printed as Amended Country Code - Code du pays de la demande imprimée après modification"
    created_at := now
    updated_at := now }

/-- `save_main_patents`: skip on empty input, else one `INSERT OR REPLACE` per
record; `ok` is false when the database layer raises (the method's
`try/except` then leaves the table unchanged). -/
def save_main_patents (ok : Bool) (now : String) (data : List Record) (st : Store) : Store :=
  if data.isEmpty then st
  else if ok && st.tables.contains "patents_main" then
    { st with patents_main :=
        data.foldl (fun t r => insertOrReplaceMain t (mainRowOfRecord now r)) st.patents_main }
  else st

/-- Columns bound by `save_abstracts` (pull_patents.py:961-989):
(patent_number, sequence_number, filing_language_code, abstract_language_code,
abstract_text). -/
def abstractFields (r : Record) : List (Option String) :=
  [recGet r "Patent Number - Numéro du brevet",
   recGet r "Abstract text sequence number - Texte de l\x27abrégé numéro de séquence",
   recGet r "Language of Filing Code - Langue du type de dépôt",
   recGet r "Abstract Language Code - Code de la langue du résumé",
   recGet r "Abstract Text - Texte de l\x27abrégé"]

def save_abstracts (ok : Bool) (data : List Record) (st : Store) : Store :=
  if data.isEmpty then st
  else if ok && st.tables.contains "patent_abstracts" then
    { st with patent_abstracts := data.foldl (fun t r => insertChildRow t (abstractFields r)) st.patent_abstracts }
  else st

/-- Columns bound by `save_claims` (pull_patents.py:991-1018):
(patent_number, sequence_number, filing_language_code, claims_text); the
sequence number falls back across two label spellings with Python `or`. -/
def claimFields (r : Record) : List (Option String) :=
  [recGet r "Patent Number - Numéro du brevet",
   pyOr (recGet r "Claims text sequence number - Texte des revendications numéro de séquence")
     (recGet r "Claim text sequence number - Texte des revendications numéro de séquence"),
   recGet r "Language of Filing Code - Langue du type de dépôt",
   recGet r "Claims Text - Texte des revendications"]

def save_claims (ok : Bool) (data : List Record) (st : Store) : Store :=
  if data.isEmpty then st
  else if ok && st.tables.contains "patent_claims" then
    { st with patent_claims := data.foldl (fun t r => insertChildRow t (claimFields r)) st.patent_claims }
  else st

/-- Columns bound by `save_disclosures` (pull_patents.py:1020-1046):
(patent_number, sequence_number, filing_language_code, disclosure_text). -/
def disclosureFields (r : Record) : List (Option String) :=
  [recGet r "Patent Number - Numéro du brevet",
   recGet r "Disclosure text sequence number - Texte de la divulgation numéro de séquence",
   recGet r "Language of Filing Code - Langue du type de dépôt",
   recGet r "Disclosure Text - Texte de la divulgation"]

def save_disclosures (ok : Bool) (data : List Record) (st : Store) : Store :=
  if data.isEmpty then st
  else if ok && st.tables.contains "patent_disclosures" then
    { st with patent_disclosures := data.foldl (fun t r => insertChildRow t (disclosureFields r)) st.patent_disclosures }
  else st

/-- Columns bound by `save_interested_parties` (pull_patents.py:1048-1094), in
INSERT order: patent_number, agent_type_code, applicant_type_code,
interested_party_type_code, interested_party_type, owner_enable_date,
ownership_end_date, party_name, the five address lines, party_city,
party_province_code, party_province, party_postal_code, party_country_code,
party_country. -/
def interestedPartyFields (r : Record) : List (Option String) :=
  [recGet r "Patent Number - Numéro du brevet",
   recGet r "Agent Type Code - Code du type d\x27agent",
   recGet r "Applicant Type Code - Code du type de demandeur",
   recGet r "Interested Party Type Code - Code du type de partie intéressée",
   recGet r "Interested Party Type - Type de partie intéressée",
   recGet r "Owner Enable Date - Date de validation du propriétaire",
   recGet r "Ownership End Date - Date de fin de propriété",
   recGet r "Party Name - Nom de la partie",
   recGet r "Party Address Line 1 - Adresse de la partie ligne 1",
   recGet r "Party Address Line 2 - Adresse de la partie ligne 2",
   recGet r "Party Address Line 3 - Adresse de la partie ligne 3",
   recGet r "Party Address Line 4 - Adresse de la partie ligne 4",
   recGet r "Party Address Line 5 - Adresse de la partie ligne 5",
   recGet r "Party City - Ville de la partie",
   recGet r "Party Province Code - Code de la province de la partie",
   recGet r "Party Province - Province de la partie",
   recGet r "Party Postal Code - Code postal de la partie",
   recGet r "Party Country Code - Code du pays de la partie",
   recGet r "Party Country - Pays de la partie"]

def save_interested_parties (ok : Bool) (data : List Record) (st : Store) : Store :=
  if data.isEmpty then st
  else if ok && st.tables.contains "patent_interested_parties" then
    { st with patent_interested_parties :=
        data.foldl (fun t r => insertChildRow t (interestedPartyFields r)) st.patent_interested_parties }
  else st

/-- Columns bound by `save_ipc_classifications` (pull_patents.py:1096-1137), in
INSERT order: patent_number, sequence_number, ipc_version_date,
classification_level, classification_status_code, classification_status, then
the IPC section/class/subclass/group/subgroup codes and names. -/
def ipcFields (r : Record) : List (Option String) :=
  [recGet r "Patent Number - Numéro du brevet",
   recGet r "IPC Classification Sequence Number - Numéro de séquence de la classification de la CIB",
   recGet r "IPC Version Date - Date de la version de la CIB",
   recGet r "Classification Level - Niveau de classification",
   recGet r "Classification Status Code - Code du statut de classification",
   recGet r "Classification Status - Statut de classification",
   recGet r "IPC Section Code - Code de la section de la CIB",
   recGet r "IPC Section - Section de la CIB",
   recGet r "IPC Class Code - Code de la classe de la CIB",
   recGet r "IPC Class - Classe de la CIB",
   recGet r "IPC Subclass Code - Code de la sous-classe de la CIB",
   recGet r "IPC Subclass - Sous-classe de la CIB",
   recGet r "IPC Main Group Code - Code du groupe principal de la CIB",
   recGet r "IPC Group - Groupe de la CIB",
   recGet r "IPC Subgroup Code - Code du sous-groupe de la CIB",
   recGet r "IPC Subgroup - Sous-groupe de la CIB"]

def save_ipc_classifications (ok : Bool) (data : List Record) (st : Store) : Store :=
  if data.isEmpty then st
  else if ok && st.tables.contains "patent_ipc_classifications" then
    { st with patent_ipc_classifications :=
        data.foldl (fun t r => insertChildRow t (ipcFields r)) st.patent_ipc_classifications }
  else st

/-- Columns bound by `save_priority_claims` (pull_patents.py:1139-1168):
(patent_number, foreign_application_number, priority_claim_kind_code,
priority_claim_country_code, priority_claim_country, priority_claim_date). -/
def priorityClaimFields (r : Record) : List (Option String) :=
  [recGet r "Patent Number - Numéro du brevet",
   recGet r "Foreign Application/Patent Number - Numéro du brevet étranger / national",
   recGet r "Priority Claim Kind Code - Code de type de revendications de priorité",
   recGet r "Priority Claim Country Code - Code du pays d\x27origine de revendications de priorité",
   recGet r "Priority Claim Country - Pays d\x27origine de revendications de priorité",
   recGet r "Priority Claim Calendar Dt - Date de revendications de priorité"]

def save_priority_claims (ok : Bool) (data : List Record) (st : Store) : Store :=
  if data.isEmpty then st
  else if ok && st.tables.contains "patent_priority_claims" then
    { st with patent_priority_claims :=
        data.foldl (fun t r => insertChildRow t (priorityClaimFields r)) st.patent_priority_claims }
  else st

/-- The column tuple `save_patents_to_db` (pull_patents.py:1170-1205) binds for
one legacy patent dict: (id, title, description, patent_number, inventor_name,
assignee, filing_date, grant_date, classification, status, url, updated_at). -/
def legacyRow (now : String) (p : Record) : List (Option String) :=
  [recGet p "id", recGet p "title", recGet p "description", recGet p "patent_number",
   recGet p "inventor_name", recGet p "assignee", recGet p "filing_date",
   recGet p "grant_date", recGet p "classification", recGet p "status",
   recGet p "url", some now]

/-- `save_patents_to_db`: inserts into a table named `patents`.  When that
table does not exist the first `cursor.execute` raises, the exception is
caught and logged, nothing was committed, and the store is unchanged. -/
def save_patents_to_db (ok : Bool) (now : String) (patents : List Record) (st : Store) : Store :=
  if patents.isEmpty then st
  else if ok && st.tables.contains "patents" then
    { st with patents_legacy := st.patents_legacy ++ patents.map (legacyRow now) }
  else st

/-- `get_patent_count` (pull_patents.py:1301-1312): `SELECT COUNT(*) FROM
patents`; on any exception (in particular `no such table: patents`) it
returns 0. -/
def get_patent_count (st : Store) : Nat :=
  if st.tables.contains "patents" then st.patents_legacy.length else 0

/-- `save_dataset_info` (pull_patents.py:1276-1299): upsert into `datasets`
keyed by dataset id, truncating the notes to 500 characters. -/
def save_dataset_info (ok : Bool) (now : String) (dataset : Record) (st : Store) : Store :=
  if ok && st.tables.contains "datasets" then
    { st with datasets :=
        (insertOrReplaceDataset st.datasets
          { id := recGet dataset "id"
            name := recGet dataset "name"
            title := recGet dataset "title"
            description := some (String.mk (((recGet dataset "notes").getD "").data.take 500))
            last_updated := recGet dataset "metadata_modified"
            processed_at := now }) }
  else st

/-- The fetcher's cache directory (constructor default `"patent_cache"`). -/
def cacheDir : String := "patent_cache"

/-- `os.path.basename`: the part of the path after the last `/`. -/
def basenameOf (url : String) : String :=
  String.mk ((url.data.reverse.takeWhile (fun c => !(c == '/'))).reverse)

/-- `filename.endswith(('.zip', '.csv', '.xml'))`. -/
def recognizedExt (s : String) : Bool :=
  strEndsWith s ".zip" || strEndsWith s ".csv" || strEndsWith s ".xml"

/-- `get_cached_file_path` (pull_patents.py:252-259): keep the URL's basename
when it ends in `.zip`/`.csv`/`.xml`, else use the hex MD5 digest **of the
URL** with the default extension `.zip`; join under the cache directory.
`md5hex` is the external `hashlib.md5(url.encode()).hexdigest()`. -/
def get_cached_file_path (md5hex : String → String) (url : String) : String :=
  let url_hash := md5hex url
  let filename := basenameOf url
  let filename :=
    if filename == "" || !(recognizedExt filename) then url_hash ++ ".zip"
    else filename
  cacheDir ++ "/" ++ filename

/-- `is_file_cached` (pull_patents.py:261-275): the recorded local path, only
when a cache row exists for the url and the file is still on disk. -/
def is_file_cached (st : Store) (url : String) : Option String :=
  match st.file_cache.find? (fun e => e.url == url) with
  | some e => if (fsRead st.files e.local_path).isSome then some e.local_path else none
  | none => none

/-- `is_file_processed` (pull_patents.py:277-289): true only when a cache row
exists for the url with `processed = 1` (no row, or a database error, gives
false). -/
def is_file_processed (st : Store) (url : String) : Bool :=
  match st.file_cache.find? (fun e => e.url == url) with
  | some e => e.processed
  | none => false

/-- `cache_file` (pull_patents.py:291-315): write the bytes to the derived
path, then `INSERT OR REPLACE` the cache row with `processed = False`, and
return the path.  `writeOk`/`dbOk` say whether the file write resp. the
database insert raises; on either failure the method's `except` returns `""`
(a failed insert commits nothing, but a completed file write persists). -/
def cache_file (md5hex : String → String) (writeOk dbOk : Bool) (now : String)
    (url content : String) (st : Store) : String × Store :=
  let local_path := get_cached_file_path md5hex url
  if writeOk then
    let files' := fsWrite st.files local_path content
    if dbOk then
      (local_path,
        { st with files := files',
                  file_cache := insertOrReplaceCache st.file_cache
                    { url := url, local_path := local_path, downloaded_at := now,
                      file_size := content.length, processed := false } })
    else ("", { st with files := files' })
  else ("", st)

/-- `mark_file_processed` (pull_patents.py:532-541): `UPDATE file_cache SET
processed = TRUE WHERE url = ?` (a no-op when no row matches); `ok` false is
the logged-and-swallowed database failure. -/
def mark_file_processed (ok : Bool) (url : String) (st : Store) : Store :=
  if ok then
    { st with file_cache :=
        st.file_cache.map (fun e => if e.url == url then { e with processed := true } else e) }
  else st

/-- Python `str.strip()` (whitespace at both ends). -/
def isPySpace (c : Char) : Bool :=
  c == ' ' || c == '\t' || c == '\n' || c == '\r' || c == '\x0b' || c == '\x0c'

def pyStrip (s : String) : String :=
  String.mk (((s.data.dropWhile isPySpace).reverse.dropWhile isPySpace).reverse)

/-- One lookup chain of `extract_patent_info`'s `field_mappings`: the first
label that is present in the record with a truthy value wins, and its value is
`str(...).strip()`-ed; otherwise the canonical field stays `None`. -/
def firstFieldValue (r : Record) : List String → Option String
  | [] => none
  | l :: rest =>
    match r.lookup l with
    | some v => if pyTruthy v then some (pyStrip (v.getD "")) else firstFieldValue r rest
    | none => firstFieldValue r rest

/-- `extract_patent_info` (pull_patents.py:839-883): map loose source labels to
the ten canonical legacy fields; keep the record only if a title or patent
number was resolved, adding an `id` (the patent number, else
`"patent_" + hash(str(record))` — `pyHash` is Python's opaque `hash`). -/
def extract_patent_info (pyHash : Record → Int) (record : Record) : Option Record :=
  let title := firstFieldValue record
    ["title", "patent_title", "name", "invention_title", "Title - Titre",
     "Application/Patent Title English - Demande/Titre anglais du brevet",
     "Application/Patent Title French - Demande/Titre français du brevet"]
  let description := firstFieldValue record
    ["description", "abstract", "summary", "patent_abstract", "Abstract - Abrégé",
     "Abstract Text - Texte de l\x27abrégé"]
  let patent_number := firstFieldValue record
    ["patent_number", "patent_id", "application_number", "id",
     "Patent Number - Numéro du brevet", "Application Number - Numéro de demande"]
  let inventor_name := firstFieldValue record
    ["inventor", "inventor_name", "inventors", "applicant",
     "Inventor Name - Nom de l\x27inventeur"]
  let assignee := firstFieldValue record
    ["assignee", "assignee_name", "owner", "applicant_name",
     "Assignee Name - Nom du cessionnaire"]
  let filing_date := firstFieldValue record
    ["filing_date", "application_date", "filed_date", "date_filed",
     "Filing Date - Date de dépôt", "Application Filing Date - Date de dépôt de la demande"]
  let grant_date := firstFieldValue record
    ["grant_date", "issue_date", "granted_date", "date_granted",
     "Grant Date - Date de l\x27octroi", "Patent Grant Date - Date d\x27octroi du brevet"]
  let classification := firstFieldValue record
    ["classification", "ipc_class", "class", "category", "IPC Class - Classe IPC"]
  let status := firstFieldValue record
    ["status", "patent_status", "state",
     "Application Status Code - Code du statut de la demande",
     "Application Status - État de la demande"]
  let url := firstFieldValue record ["url", "link", "patent_url", "href"]
  if pyTruthy title || pyTruthy patent_number then
    some [("title", title), ("description", description), ("patent_number", patent_number),
          ("inventor_name", inventor_name), ("assignee", assignee),
          ("filing_date", filing_date), ("grant_date", grant_date),
          ("classification", classification), ("status", status), ("url", url),
          ("id", pyOr patent_number (some ("patent_" ++ toString (pyHash record))))]
  else none

/-- What one `csv.DictReader` pass over a text produces: either the full row
list, or a `csv.Error` raised mid-iteration after the rows in `emitted` were
already appended to the caller's accumulator. -/
inductive CsvOutcome where
  | ok (rows : List Record)
  | err (emitted : List Record)
deriving Repr

/-- `parse_csv_data` (pull_patents.py:687-757).  The three reader
configurations (strict pipe-delimited; pipe-delimited with `QUOTE_ALL`;
pipe-delimited with `QUOTE_MINIMAL`, quotechar `"` and backslash escaping) are
the external `csv` module, passed as `rA`/`rB`/`rC`.  Crucial control-flow
fact: the `patents` accumulator is shared across the three attempts and never
reset, so rows emitted before a `csv.Error` stay in the result; a `csv.Error`
from the third reader escapes to the outer generic handler, which logs and
falls through to `return patents`. -/
def parse_csv_data (rA rB rC : String → CsvOutcome) (csv_text : String) : List Record :=
  match rA csv_text with
  | .ok rows => rows
  | .err p1 =>
    match rB csv_text with
    | .ok rows => p1 ++ rows
    | .err p2 =>
      match rC csv_text with
      | .ok rows => p1 ++ p2 ++ rows
      | .err p3 => p1 ++ p2 ++ p3

/-- One inner file of a downloaded ZIP archive: its name in the archive and
its text content (`zip_file.open(name).read().decode('utf-8',
errors='ignore')`). -/
structure ZipEntryFile where
  name : String
  content : String
deriving Repr, DecidableEq

/-- An HTTP response.  `content` is the raw body (an opaque byte string —
cached to disk and handed to `zipfile`); `content_type` the `content-type`
header.  The byte-level steps of `download_and_parse_resource` that cannot be
replayed on a text model are carried as response attributes:
`rawBinaryGuard` is the verdict of the null-byte/control-character test on the
first 100 raw bytes, and `decoded` is the result of the
utf-8/latin-1/cp1252/iso-8859-1 decode loop (`none` when no encoding produced
a text longer than 100 characters, or decoding raised). -/
structure NetResponse where
  content : String
  content_type : String
  rawBinaryGuard : Bool
  decoded : Option String
deriving Repr

/-- A CKAN resource descriptor (the fields the fetcher reads). -/
structure Resource where
  url : Option String
  name : String
  format : String
deriving Repr

/-- The external world of one fetch run: the `csv` module's three reader
configurations, the network, `zipfile`, the JSON/XML record extractors
(`parse_json_data` on `response.json()` with `ValueError` giving `[]`, and
`parse_xml_data`; neither is exercised by the claims), `hashlib.md5`, Python's
`hash`, the clock, and failure oracles for the file write, the cache insert,
the `processed` update, and each store save call (numbered in call order). -/
structure Env where
  csvA : String → CsvOutcome
  csvB : String → CsvOutcome
  csvC : String → CsvOutcome
  net : String → Option NetResponse
  zipParse : String → Option (List ZipEntryFile)
  jsonRecords : String → List Record
  xmlRecords : String → List Record
  md5hex : String → String
  pyHash : Record → Int
  now : String
  cacheWriteOk : Bool
  cacheDbOk : Bool
  markOk : Bool
  saveOk : Nat → Bool

/-- Loop state of `download_and_extract_zip`'s `for file_name in file_list`:
the evolving store, the legacy `patents` accumulator, and the number of store
save calls issued so far (feeding the `saveOk` oracle). -/
structure LoopAcc where
  st : Store
  patents : List Record
  saveIdx : Nat

/-- The body of one loop iteration of `download_and_extract_zip`
(pull_patents.py:449-517), with `file_type := determine_file_type name` and
`parsed := parse_csv_data(...)` passed in: skip directories and non-`.csv`
entries; on a non-empty parse, route the rows to the save method matching the
file type, or, for an unknown type, through the legacy `extract_patent_info`
into the `patents` accumulator. -/
def zipEntryRoute (env : Env) (acc : LoopAcc) (file_type : String)
    (parsed : List Record) (name : String) : LoopAcc :=
  if strEndsWith name "/" then acc
  else if !(strEndsWith (toLowerStr name) ".csv") then acc
  else if parsed.isEmpty then acc
  else if file_type == "main" then
      { acc with st := save_main_patents (env.saveOk acc.saveIdx) env.now parsed acc.st,
                 saveIdx := acc.saveIdx + 1 }
    else if file_type == "abstract" then
      { acc with st := save_abstracts (env.saveOk acc.saveIdx) parsed acc.st,
                 saveIdx := acc.saveIdx + 1 }
    else if file_type == "claim" then
      { acc with st := save_claims (env.saveOk acc.saveIdx) parsed acc.st,
                 saveIdx := acc.saveIdx + 1 }
    else if file_type == "disclosure" then
      { acc with st := save_disclosures (env.saveOk acc.saveIdx) parsed acc.st,
                 saveIdx := acc.saveIdx + 1 }
    else if file_type == "interested_party" then
      { acc with st := save_interested_parties (env.saveOk acc.saveIdx) parsed acc.st,
                 saveIdx := acc.saveIdx + 1 }
    else if file_type == "ipc_classification" then
      { acc with st := save_ipc_classifications (env.saveOk acc.saveIdx) parsed acc.st,
                 saveIdx := acc.saveIdx + 1 }
    else if file_type == "priority_claim" then
      { acc with st := save_priority_claims (env.saveOk acc.saveIdx) parsed acc.st,
                 saveIdx := acc.saveIdx + 1 }
    else
      { acc with patents := acc.patents ++ parsed.filterMap (extract_patent_info env.pyHash) }

/-- One iteration of the inner-file loop: compute the file type and the parsed
rows, then route. -/
def zipEntryStep (env : Env) (acc : LoopAcc) (e : ZipEntryFile) : LoopAcc :=
  zipEntryRoute env acc (determine_file_type e.name)
    (parse_csv_data env.csvA env.csvB env.csvC e.content) e.name

/-- Result of `download_and_extract_zip`: the legacy-path records it returns,
the store it leaves behind, and how many network GETs it issued. -/
structure ZipRun where
  patents : List Record
  st : Store
  downloads : Nat

/-- The part of `download_and_extract_zip` from `zipfile.ZipFile(local_path)`
on: open the blob at `local_path` (an unreadable path or a `BadZipFile` is
caught by the outer handler — no marking happens), fold the inner-file loop,
then mark the url processed (`if local_path:`). -/
def zipProcessLocal (env : Env) (st : Store) (url local_path : String) (downloads : Nat) : ZipRun :=
  match fsRead st.files local_path with
  | none => { patents := [], st := st, downloads := downloads }
  | some blob =>
    match env.zipParse blob with
    | none => { patents := [], st := st, downloads := downloads }
    | some entries =>
      let acc := entries.foldl (zipEntryStep env) { st := st, patents := [], saveIdx := 0 }
      let st' := if !(local_path == "") then mark_file_processed env.markOk url acc.st else acc.st
      { patents := acc.patents, st := st', downloads := downloads }

/-- `download_and_extract_zip` (pull_patents.py:388-530): skip a processed
url; reuse a cached blob without downloading; otherwise GET the url, reject a
response that is neither `zip`-typed nor `.zip`-named, cache the bytes, and
process the archive from the local path. -/
def download_and_extract_zip (env : Env) (res : Resource) (st : Store) : ZipRun :=
  match res.url with
  | none => { patents := [], st := st, downloads := 0 }
  | some url =>
    if is_file_processed st url then { patents := [], st := st, downloads := 0 }
    else
      match is_file_cached st url with
      | some cached_path => zipProcessLocal env st url cached_path 0
      | none =>
        match env.net url with
        | none => { patents := [], st := st, downloads := 1 }
        | some resp =>
          if !(containsSub resp.content_type "zip") && !(strEndsWith url ".zip") then
            { patents := [], st := st, downloads := 1 }
          else
            if (cache_file env.md5hex env.cacheWriteOk env.cacheDbOk env.now url resp.content st).1 == "" then
              { patents := [],
                st := (cache_file env.md5hex env.cacheWriteOk env.cacheDbOk env.now url resp.content st).2,
                downloads := 1 }
            else
              zipProcessLocal env
                (cache_file env.md5hex env.cacheWriteOk env.cacheDbOk env.now url resp.content st).2 url
                (cache_file env.md5hex env.cacheWriteOk env.cacheDbOk env.now url resp.content st).1 1

/-- `len([c for c in s if ord(c) < 32 and c not in '\t\n\r'])`. -/
def countControlChars (s : String) : Nat :=
  (s.data.filter (fun c => c.toNat < 32 && !(c == '\t' || c == '\n' || c == '\r'))).length

/-- `download_and_parse_resource` (pull_patents.py:543-660): skip a processed
url; otherwise GET it and run the guards (binary sniff, encoding fallback,
minimum size, HTML/ZIP/control-character preview) before dispatching on
format/content-type to the JSON, CSV or XML parser.  The function performs no
database write and never caches or marks the resource; it returns the parsed
records and the number of GETs issued. -/
def download_and_parse_resource (env : Env) (res : Resource) (st : Store) : List Record × Nat :=
  match res.url with
  | none => ([], 0)
  | some url =>
    if is_file_processed st url then ([], 0)
    else
      match env.net url with
      | none => ([], 1)
      | some resp =>
        if resp.rawBinaryGuard then ([], 1)
        else
          match resp.decoded with
          | none => ([], 1)
          | some content_text =>
            if (pyStrip content_text).length < 100 then ([], 1)
            else
              let content_preview := pyStrip (String.mk (content_text.data.take 200))
              if strStartsWith (toLowerStr content_preview) "<!doctype html"
                  || containsSub (toLowerStr content_preview) "<html"
                  || containsSub (String.mk (content_preview.data.take 10)) "PK"
                  || decide (20 < countControlChars content_preview) then
                ([], 1)
              else
                if toLowerStr res.format == "json" || containsSub (toLowerStr resp.content_type) "json" then
                  (env.jsonRecords content_text, 1)
                else if toLowerStr res.format == "csv" || containsSub (toLowerStr resp.content_type) "csv" then
                  (parse_csv_data env.csvA env.csvB env.csvC content_text, 1)
                else if toLowerStr res.format == "xml" || toLowerStr res.format == "rdf" ||
                    containsSub (toLowerStr resp.content_type) "xml" then
                  (env.xmlRecords content_text, 1)
                else ([], 1)

/-- The per-resource body of `fetch_all_patent_data`'s loop
(pull_patents.py:1231-1265): ZIP resources (by declared format or `.zip` url)
go through `download_and_extract_zip`; `json`/`csv`/`xml`/`rdf` resources
through `download_and_parse_resource`; anything else is skipped.  Either way,
a non-empty record list is handed to `save_patents_to_db`.  Returns the new
store and the number of network GETs. -/
def processResource (env : Env) (res : Resource) (st : Store) : Store × Nat :=
  if toLowerStr res.format == "zip" || strEndsWith (res.url.getD "") ".zip" then
    (if !(download_and_extract_zip env res st).patents.isEmpty then
        save_patents_to_db true env.now (download_and_extract_zip env res st).patents
          (download_and_extract_zip env res st).st
      else (download_and_extract_zip env res st).st,
     (download_and_extract_zip env res st).downloads)
  else if !(toLowerStr res.format == "json" || toLowerStr res.format == "csv" ||
            toLowerStr res.format == "xml" || toLowerStr res.format == "rdf") then
    (st, 0)
  else
    (if !(download_and_parse_resource env res st).1.isEmpty then
        save_patents_to_db true env.now (download_and_parse_resource env res st).1 st
      else st,
     (download_and_parse_resource env res st).2)

/-- The stores reachable from a fresh `init_database` state by the fetcher's
own write operations. -/
inductive Reachable : Store → Prop where
  | init : Reachable initStore
  | saveMain (ok : Bool) (now : String) (data : List Record) {st : Store} :
      Reachable st → Reachable (save_main_patents ok now data st)
  | saveAbstracts (ok : Bool) (data : List Record) {st : Store} :
      Reachable st → Reachable (save_abstracts ok data st)
  | saveClaims (ok : Bool) (data : List Record) {st : Store} :
      Reachable st → Reachable (save_claims ok data st)
  | saveDisclosures (ok : Bool) (data : List Record) {st : Store} :
      Reachable st → Reachable (save_disclosures ok data st)
  | saveParties (ok : Bool) (data : List Record) {st : Store} :
      Reachable st → Reachable (save_interested_parties ok data st)
  | saveIpc (ok : Bool) (data : List Record) {st : Store} :
      Reachable st → Reachable (save_ipc_classifications ok data st)
  | savePriority (ok : Bool) (data : List Record) {st : Store} :
      Reachable st → Reachable (save_priority_claims ok data st)
  | saveLegacy (ok : Bool) (now : String) (patents : List Record) {st : Store} :
      Reachable st → Reachable (save_patents_to_db ok now patents st)
  | saveDataset (ok : Bool) (now : String) (dataset : Record) {st : Store} :
      Reachable st → Reachable (save_dataset_info ok now dataset st)
  | cacheFile (md5hex : String → String) (writeOk dbOk : Bool) (now url content : String)
      {st : Store} :
      Reachable st → Reachable (cache_file md5hex writeOk dbOk now url content st).2
  | markProcessed (ok : Bool) (url : String) {st : Store} :
      Reachable st → Reachable (mark_file_processed ok url st)
  | zipRun (env : Env) (res : Resource) {st : Store} :
      Reachable st → Reachable (download_and_extract_zip env res st).st
  | resourceStep (env : Env) (res : Resource) {st : Store} :
      Reachable st → Reachable (processResource env res st).1

/-- The non-null `patent_number` keys of `patents_main`, in row order. -/
def mainKeys (t : List MainRow) : List String :=
  t.filterMap (fun r => r.patent_number)

/-- The rows of `patents_main` carrying a given patent number. -/
def mainRowsFor (t : List MainRow) (pn : String) : List MainRow :=
  t.filter (fun r => r.patent_number == some pn)

/-- The `url` keys of `file_cache`, in row order. -/
def cacheUrls (t : List CacheEntry) : List String :=
  t.map (fun e => e.url)

/-- The `file_cache` rows for a given url. -/
def entriesFor (t : List CacheEntry) (url : String) : List CacheEntry :=
  t.filter (fun e => e.url == url)

/-- The exact source label keying every table's patent number column. -/
def patentNumberLabel : String := "Patent Number - Numéro du brevet"

/-- A sample claim-kind CSV row (also reused as a generic child row: each
save's extractor reads its own labels and leaves the rest null). -/
def childRec : Record :=
  [(patentNumberLabel, some "CA1234567"),
   ("Claims text sequence number - Texte des revendications numéro de séquence", some "1"),
   ("Language of Filing Code - Langue du type de dépôt", some "EN"),
   ("Claims Text - Texte des revendications", some "A method comprising a widget.")]

/-- A sample main-kind CSV row. -/
def mainRecA : Record :=
  [(patentNumberLabel, some "CA1234567"),
   ("Filing Date - Date de dépôt", some "2020-01-01"),
   ("Application/Patent Title English - Demande/Titre anglais du brevet", some "WIDGET")]

/-- The same patent re-delivered with a changed title. -/
def mainRecB : Record :=
  [(patentNumberLabel, some "CA1234567"),
   ("Filing Date - Date de dépôt", some "2020-01-01"),
   ("Application/Patent Title English - Demande/Titre anglais du brevet", some "IMPROVED WIDGET")]

/-- Three distinct sample CSV rows for the parser claims. -/
def rowX : Record := [(patentNumberLabel, some "CA0000001")]

def rowY : Record := [(patentNumberLabel, some "CA0000002")]

def rowZ : Record := [(patentNumberLabel, some "CA0000003")]

/-- A stand-in for `hashlib.md5(...).hexdigest()` in closed instances (a fixed
hex digest; the properties instantiated with it do not depend on the digest's
value). -/
def md5stub : String → String := fun _ => "9e107d9d372bb6826bd81d3542a419d6"

/-- A sample ZIP resource descriptor. -/
def zipRes : Resource :=
  { url := some "https://opic.example.ca/archives/PT_archive_2024.zip",
    name := "Patent archive", format := "ZIP" }

/-- A sample environment for ZIP runs: the GET returns a zip-typed blob whose
archive holds one claim-kind CSV file parsing to `[childRec]`; file system and
cache database behave; `saveOk` is left as a parameter. -/
def mkZipEnv (saveOk : Nat → Bool) : Env :=
  { csvA := fun _ => CsvOutcome.ok [childRec]
    csvB := fun _ => CsvOutcome.err []
    csvC := fun _ => CsvOutcome.err []
    net := fun _ => some { content := "PKzipbytes", content_type := "application/zip",
                           rawBinaryGuard := true, decoded := none }
    zipParse := fun _ => some [{ name := "PT_claim_2024.csv", content := "claims csv text" }]
    jsonRecords := fun _ => []
    xmlRecords := fun _ => []
    md5hex := md5stub
    pyHash := fun _ => 0
    now := "2026-10-12T00:00:00"
    cacheWriteOk := true
    cacheDbOk := true
    markOk := true
    saveOk := saveOk }

/-- A 100+-character pipe-delimited payload that passes every guard of
`download_and_parse_resource`. -/
def csvText150 : String :=
  "Patent Number - Numero du brevet|Filing Date|Status\nCA0000001|2020-01-01|GR\nCA0000002|2020-02-02|GR\nCA0000003|2020-03-03|GR\n"

/-- A sample flat CSV resource descriptor. -/
def csvRes : Resource :=
  { url := some "https://opic.example.ca/exports/patents.csv",
    name := "Patent export", format := "CSV" }

/-- Environment for flat CSV runs: the GET returns `csvText150`, which the
strict reader parses to three rows. -/
def csvEnv : Env :=
  { csvA := fun _ => CsvOutcome.ok [rowX, rowY, rowZ]
    csvB := fun _ => CsvOutcome.err []
    csvC := fun _ => CsvOutcome.err []
    net := fun _ => some { content := csvText150, content_type := "text/csv",
                           rawBinaryGuard := false, decoded := some csvText150 }
    zipParse := fun _ => none
    jsonRecords := fun _ => []
    xmlRecords := fun _ => []
    md5hex := md5stub
    pyHash := fun _ => 0
    now := "2026-10-12T00:00:00"
    cacheWriteOk := true
    cacheDbOk := true
    markOk := true
    saveOk := fun _ => true }

/-! ### Frame lemmas: fields each write operation leaves untouched -/

theorem save_main_patents_tables (ok : Bool) (now : String) (data : List Record) (st : Store) :
    (save_main_patents ok now data st).tables = st.tables := by
  unfold save_main_patents
  split
  · rfl
  · split <;> rfl

theorem save_main_patents_cache (ok : Bool) (now : String) (data : List Record) (st : Store) :
    (save_main_patents ok now data st).file_cache = st.file_cache := by
  unfold save_main_patents
  split
  · rfl
  · split <;> rfl

theorem save_abstracts_tables (ok : Bool) (data : List Record) (st : Store) :
    (save_abstracts ok data st).tables = st.tables := by
  unfold save_abstracts
  split
  · rfl
  · split <;> rfl

theorem save_abstracts_main (ok : Bool) (data : List Record) (st : Store) :
    (save_abstracts ok data st).patents_main = st.patents_main := by
  unfold save_abstracts
  split
  · rfl
  · split <;> rfl

theorem save_abstracts_cache (ok : Bool) (data : List Record) (st : Store) :
    (save_abstracts ok data st).file_cache = st.file_cache := by
  unfold save_abstracts
  split
  · rfl
  · split <;> rfl

theorem save_claims_tables (ok : Bool) (data : List Record) (st : Store) :
    (save_claims ok data st).tables = st.tables := by
  unfold save_claims
  split
  · rfl
  · split <;> rfl

theorem save_claims_main (ok : Bool) (data : List Record) (st : Store) :
    (save_claims ok data st).patents_main = st.patents_main := by
  unfold save_claims
  split
  · rfl
  · split <;> rfl

theorem save_claims_cache (ok : Bool) (data : List Record) (st : Store) :
    (save_claims ok data st).file_cache = st.file_cache := by
  unfold save_claims
  split
  · rfl
  · split <;> rfl

theorem save_disclosures_tables (ok : Bool) (data : List Record) (st : Store) :
    (save_disclosures ok data st).tables = st.tables := by
  unfold save_disclosures
  split
  · rfl
  · split <;> rfl

theorem save_disclosures_main (ok : Bool) (data : List Record) (st : Store) :
    (save_disclosures ok data st).patents_main = st.patents_main := by
  unfold save_disclosures
  split
  · rfl
  · split <;> rfl

theorem save_disclosures_cache (ok : Bool) (data : List Record) (st : Store) :
    (save_disclosures ok data st).file_cache = st.file_cache := by
  unfold save_disclosures
  split
  · rfl
  · split <;> rfl

theorem save_interested_parties_tables (ok : Bool) (data : List Record) (st : Store) :
    (save_interested_parties ok data st).tables = st.tables := by
  unfold save_interested_parties
  split
  · rfl
  · split <;> rfl

theorem save_interested_parties_main (ok : Bool) (data : List Record) (st : Store) :
    (save_interested_parties ok data st).patents_main = st.patents_main := by
  unfold save_interested_parties
  split
  · rfl
  · split <;> rfl

theorem save_interested_parties_cache (ok : Bool) (data : List Record) (st : Store) :
    (save_interested_parties ok data st).file_cache = st.file_cache := by
  unfold save_interested_parties
  split
  · rfl
  · split <;> rfl

theorem save_ipc_classifications_tables (ok : Bool) (data : List Record) (st : Store) :
    (save_ipc_classifications ok data st).tables = st.tables := by
  unfold save_ipc_classifications
  split
  · rfl
  · split <;> rfl

theorem save_ipc_classifications_main (ok : Bool) (data : List Record) (st : Store) :
    (save_ipc_classifications ok data st).patents_main = st.patents_main := by
  unfold save_ipc_classifications
  split
  · rfl
  · split <;> rfl

theorem save_ipc_classifications_cache (ok : Bool) (data : List Record) (st : Store) :
    (save_ipc_classifications ok data st).file_cache = st.file_cache := by
  unfold save_ipc_classifications
  split
  · rfl
  · split <;> rfl

theorem save_priority_claims_tables (ok : Bool) (data : List Record) (st : Store) :
    (save_priority_claims ok data st).tables = st.tables := by
  unfold save_priority_claims
  split
  · rfl
  · split <;> rfl

theorem save_priority_claims_main (ok : Bool) (data : List Record) (st : Store) :
    (save_priority_claims ok data st).patents_main = st.patents_main := by
  unfold save_priority_claims
  split
  · rfl
  · split <;> rfl

theorem save_priority_claims_cache (ok : Bool) (data : List Record) (st : Store) :
    (save_priority_claims ok data st).file_cache = st.file_cache := by
  unfold save_priority_claims
  split
  · rfl
  · split <;> rfl

theorem save_patents_to_db_tables (ok : Bool) (now : String) (ps : List Record) (st : Store) :
    (save_patents_to_db ok now ps st).tables = st.tables := by
  unfold save_patents_to_db
  split
  · rfl
  · split <;> rfl

theorem save_patents_to_db_main (ok : Bool) (now : String) (ps : List Record) (st : Store) :
    (save_patents_to_db ok now ps st).patents_main = st.patents_main := by
  unfold save_patents_to_db
  split
  · rfl
  · split <;> rfl

theorem save_patents_to_db_cache (ok : Bool) (now : String) (ps : List Record) (st : Store) :
    (save_patents_to_db ok now ps st).file_cache = st.file_cache := by
  unfold save_patents_to_db
  split
  · rfl
  · split <;> rfl

theorem save_dataset_info_tables (ok : Bool) (now : String) (ds : Record) (st : Store) :
    (save_dataset_info ok now ds st).tables = st.tables := by
  unfold save_dataset_info
  split <;> rfl

theorem save_dataset_info_main (ok : Bool) (now : String) (ds : Record) (st : Store) :
    (save_dataset_info ok now ds st).patents_main = st.patents_main := by
  unfold save_dataset_info
  split <;> rfl

theorem save_dataset_info_cache (ok : Bool) (now : String) (ds : Record) (st : Store) :
    (save_dataset_info ok now ds st).file_cache = st.file_cache := by
  unfold save_dataset_info
  split <;> rfl

theorem cache_file_tables (md5hex : String → String) (writeOk dbOk : Bool)
    (now url content : String) (st : Store) :
    (cache_file md5hex writeOk dbOk now url content st).2.tables = st.tables := by
  unfold cache_file
  split
  · split <;> rfl
  · rfl

theorem cache_file_main (md5hex : String → String) (writeOk dbOk : Bool)
    (now url content : String) (st : Store) :
    (cache_file md5hex writeOk dbOk now url content st).2.patents_main = st.patents_main := by
  unfold cache_file
  split
  · split <;> rfl
  · rfl

theorem mark_file_processed_tables (ok : Bool) (url : String) (st : Store) :
    (mark_file_processed ok url st).tables = st.tables := by
  unfold mark_file_processed
  split <;> rfl

theorem mark_file_processed_main (ok : Bool) (url : String) (st : Store) :
    (mark_file_processed ok url st).patents_main = st.patents_main := by
  unfold mark_file_processed
  split <;> rfl

theorem zipEntryRoute_tables (env : Env) (acc : LoopAcc) (ft : String)
    (parsed : List Record) (name : String) :
    (zipEntryRoute env acc ft parsed name).st.tables = acc.st.tables := by
  unfold zipEntryRoute
  repeat' split
  all_goals first
    | rfl
    | simp only [save_main_patents_tables, save_abstracts_tables, save_claims_tables,
        save_disclosures_tables, save_interested_parties_tables,
        save_ipc_classifications_tables, save_priority_claims_tables]

theorem zipEntryStep_tables (env : Env) (acc : LoopAcc) (e : ZipEntryFile) :
    (zipEntryStep env acc e).st.tables = acc.st.tables := by
  unfold zipEntryStep
  exact zipEntryRoute_tables ..

theorem zipEntryRoute_cache (env : Env) (acc : LoopAcc) (ft : String)
    (parsed : List Record) (name : String) :
    (zipEntryRoute env acc ft parsed name).st.file_cache = acc.st.file_cache := by
  unfold zipEntryRoute
  repeat' split
  all_goals first
    | rfl
    | simp only [save_main_patents_cache, save_abstracts_cache, save_claims_cache,
        save_disclosures_cache, save_interested_parties_cache,
        save_ipc_classifications_cache, save_priority_claims_cache]

theorem zipEntryStep_cache (env : Env) (acc : LoopAcc) (e : ZipEntryFile) :
    (zipEntryStep env acc e).st.file_cache = acc.st.file_cache := by
  unfold zipEntryStep
  exact zipEntryRoute_cache ..

theorem zipLoop_tables (env : Env) (entries : List ZipEntryFile) (acc : LoopAcc) :
    (entries.foldl (zipEntryStep env) acc).st.tables = acc.st.tables := by
  induction entries generalizing acc with
  | nil => rfl
  | cons e rest ih =>
    rw [List.foldl_cons, ih, zipEntryStep_tables]

theorem zipLoop_cache (env : Env) (entries : List ZipEntryFile) (acc : LoopAcc) :
    (entries.foldl (zipEntryStep env) acc).st.file_cache = acc.st.file_cache := by
  induction entries generalizing acc with
  | nil => rfl
  | cons e rest ih =>
    rw [List.foldl_cons, ih, zipEntryStep_cache]

theorem zipProcessLocal_tables (env : Env) (st : Store) (url lp : String) (d : Nat) :
    (zipProcessLocal env st url lp d).st.tables = st.tables := by
  unfold zipProcessLocal
  dsimp only
  repeat' split
  all_goals first
    | rfl
    | simp only [mark_file_processed_tables, zipLoop_tables]

theorem download_and_extract_zip_tables (env : Env) (res : Resource) (st : Store) :
    (download_and_extract_zip env res st).st.tables = st.tables := by
  unfold download_and_extract_zip
  repeat' split
  all_goals first
    | rfl
    | simp only [zipProcessLocal_tables, cache_file_tables]

theorem processResource_tables (env : Env) (res : Resource) (st : Store) :
    (processResource env res st).1.tables = st.tables := by
  unfold processResource
  repeat' split
  all_goals first
    | rfl
    | simp only [save_patents_to_db_tables, download_and_extract_zip_tables]

/-- Every store the fetcher can reach keeps the exact table set created by
`init_database`. -/
theorem reachable_tables {st : Store} (h : Reachable st) :
    st.tables = init_database_tables := by
  induction h with
  | init => rfl
  | saveMain ok now data h ih => rw [save_main_patents_tables, ih]
  | saveAbstracts ok data h ih => rw [save_abstracts_tables, ih]
  | saveClaims ok data h ih => rw [save_claims_tables, ih]
  | saveDisclosures ok data h ih => rw [save_disclosures_tables, ih]
  | saveParties ok data h ih => rw [save_interested_parties_tables, ih]
  | saveIpc ok data h ih => rw [save_ipc_classifications_tables, ih]
  | savePriority ok data h ih => rw [save_priority_claims_tables, ih]
  | saveLegacy ok now ps h ih => rw [save_patents_to_db_tables, ih]
  | saveDataset ok now ds h ih => rw [save_dataset_info_tables, ih]
  | cacheFile md5hex wOk dbOk now url content h ih => rw [cache_file_tables, ih]
  | markProcessed ok url h ih => rw [mark_file_processed_tables, ih]
  | zipRun env res h ih => rw [download_and_extract_zip_tables, ih]
  | resourceStep env res h ih => rw [processResource_tables, ih]

/-- C9: `get_patent_count` queries `SELECT COUNT(*) FROM patents`, but no store
the fetcher can reach from `init_database` has a table named `patents`, so the
query always fails, the exception is caught, and 0 is returned — regardless of
how many rows `patents_main` holds. -/
theorem c9_get_patent_count_zero (st : Store) (h : Reachable st) :
    st.tables.contains "patents" = false ∧ get_patent_count st = 0 := by
  have ht := reachable_tables h
  refine ⟨by rw [ht]; decide, ?_⟩
  have hc : init_database_tables.contains "patents" = false := by decide
  unfold get_patent_count
  rw [ht, hc]
  rfl

/-- C9 witness: a reachable store actually holding a main patent row still
counts 0. -/
theorem c9_get_patent_count_zero_witness :
    (save_main_patents true "2026-01-01T00:00:00" [mainRecA] initStore).tables.contains "patents" = false ∧
    get_patent_count (save_main_patents true "2026-01-01T00:00:00" [mainRecA] initStore) = 0 :=
  c9_get_patent_count_zero _ (Reachable.saveMain true "2026-01-01T00:00:00" [mainRecA] Reachable.init)

/-- C10: `save_patents_to_db` inserts into the `patents` table that
`init_database` never creates; the resulting error is caught and only logged,
so on every reachable store the call is the identity for all inputs — in
particular, the Unknown-kind legacy records returned by
`download_and_extract_zip` are never persisted when the caller saves them. -/
theorem c10_save_patents_to_db_noop (st : Store) (h : Reachable st) :
    (∀ (ok : Bool) (now : String) (ps : List Record), save_patents_to_db ok now ps st = st) ∧
    (∀ (env : Env) (res : Resource),
      save_patents_to_db true env.now (download_and_extract_zip env res st).patents
        (download_and_extract_zip env res st).st = (download_and_extract_zip env res st).st) := by
  have key : ∀ st' : Store, Reachable st' →
      ∀ (ok : Bool) (now : String) (ps : List Record), save_patents_to_db ok now ps st' = st' := by
    intro st' h' ok now ps
    have ht := reachable_tables h'
    have hc : (ok && st'.tables.contains "patents") = false := by
      rw [ht]; cases ok <;> rfl
    unfold save_patents_to_db
    split
    · rfl
    · rw [hc]; simp
  exact ⟨key st h, fun env res => key _ (Reachable.zipRun env res h) _ _ _⟩

/-- C10 witness: saving a concrete legacy record list into the fresh store
changes nothing. -/
theorem c10_save_patents_to_db_noop_witness :
    save_patents_to_db true "2026-01-01T00:00:00" [childRec] initStore = initStore :=
  (c10_save_patents_to_db_noop initStore Reachable.init).1 true "2026-01-01T00:00:00" [childRec]

/-! ### C4: one row per patent_number in `patents_main`, replace semantics -/

theorem textKeyConflict_none_right (a : Option String) : textKeyConflict a none = false := by
  cases a <;> rfl

theorem mainKeys_cons_some {q : MainRow} {k : String} (t : List MainRow)
    (h : q.patent_number = some k) : mainKeys (q :: t) = k :: mainKeys t := by
  simp [mainKeys, List.filterMap_cons, h]

theorem mainKeys_cons_none {q : MainRow} (t : List MainRow)
    (h : q.patent_number = none) : mainKeys (q :: t) = mainKeys t := by
  simp [mainKeys, List.filterMap_cons, h]

theorem mainRowsFor_cons (q : MainRow) (t : List MainRow) (pn : String) :
    mainRowsFor (q :: t) pn =
      if (q.patent_number == some pn) = true then q :: mainRowsFor t pn else mainRowsFor t pn := by
  simp [mainRowsFor, List.filter_cons]

theorem mainKeys_nodup_insertOrReplace (t : List MainRow) (r : MainRow)
    (h : (mainKeys t).Nodup) : (mainKeys (insertOrReplaceMain t r)).Nodup := by
  unfold insertOrReplaceMain
  unfold mainKeys at *
  rw [List.filterMap_append]
  cases hr : r.patent_number with
  | none =>
    have hfil : (t.filter fun q => !textKeyConflict q.patent_number none) = t := by
      refine List.filter_eq_self.mpr fun a _ => ?_
      rw [textKeyConflict_none_right]
      rfl
    rw [hfil]
    simpa [List.filterMap_cons, hr] using h
  | some k =>
    rw [List.nodup_append]
    refine ⟨((List.filter_sublist t).filterMap _).nodup h, by simp [List.filterMap_cons, hr], ?_⟩
    intro a ha hb
    simp only [List.filterMap_cons, hr, List.filterMap_nil, List.mem_singleton] at hb
    subst hb
    obtain ⟨row, hmem, hpn⟩ := List.mem_filterMap.mp ha
    have hpred := (List.mem_filter.mp hmem).2
    rw [hpn] at hpred
    simp [textKeyConflict] at hpred

theorem mainKeys_nodup_foldl (now : String) (data : List Record) (t : List MainRow)
    (h : (mainKeys t).Nodup) :
    (mainKeys (data.foldl (fun t r => insertOrReplaceMain t (mainRowOfRecord now r)) t)).Nodup := by
  induction data generalizing t with
  | nil => exact h
  | cons r rest ih =>
    exact ih _ (mainKeys_nodup_insertOrReplace _ _ h)

theorem save_main_patents_nodup (ok : Bool) (now : String) (data : List Record) (st : Store)
    (h : (mainKeys st.patents_main).Nodup) :
    (mainKeys (save_main_patents ok now data st).patents_main).Nodup := by
  unfold save_main_patents
  split
  · exact h
  split
  · exact mainKeys_nodup_foldl now data st.patents_main h
  · exact h

theorem zipEntryRoute_main_nodup (env : Env) (acc : LoopAcc) (ft : String)
    (parsed : List Record) (name : String)
    (h : (mainKeys acc.st.patents_main).Nodup) :
    (mainKeys (zipEntryRoute env acc ft parsed name).st.patents_main).Nodup := by
  unfold zipEntryRoute
  repeat' split
  all_goals first
    | exact h
    | exact save_main_patents_nodup _ _ _ _ h
    | (simp only [save_abstracts_main, save_claims_main, save_disclosures_main,
        save_interested_parties_main, save_ipc_classifications_main,
        save_priority_claims_main]; exact h)

theorem zipLoop_main_nodup (env : Env) (entries : List ZipEntryFile) (acc : LoopAcc)
    (h : (mainKeys acc.st.patents_main).Nodup) :
    (mainKeys ((entries.foldl (zipEntryStep env) acc).st.patents_main)).Nodup := by
  induction entries generalizing acc with
  | nil => exact h
  | cons e rest ih =>
    rw [List.foldl_cons]
    exact ih _ (zipEntryRoute_main_nodup env acc _ _ _ h)

theorem zipProcessLocal_main_nodup (env : Env) (st : Store) (url lp : String) (d : Nat)
    (h : (mainKeys st.patents_main).Nodup) :
    (mainKeys (zipProcessLocal env st url lp d).st.patents_main).Nodup := by
  unfold zipProcessLocal
  repeat' split
  all_goals first
    | exact h
    | (simp only [mark_file_processed_main]; exact zipLoop_main_nodup env _ _ h)

theorem download_and_extract_zip_main_nodup (env : Env) (res : Resource) (st : Store)
    (h : (mainKeys st.patents_main).Nodup) :
    (mainKeys (download_and_extract_zip env res st).st.patents_main).Nodup := by
  unfold download_and_extract_zip
  repeat' split
  all_goals first
    | exact h
    | exact zipProcessLocal_main_nodup env _ _ _ _ h
    | (apply zipProcessLocal_main_nodup; simp only [cache_file_main]; exact h)
    | (simp only [cache_file_main]; exact h)

theorem processResource_main_nodup (env : Env) (res : Resource) (st : Store)
    (h : (mainKeys st.patents_main).Nodup) :
    (mainKeys (processResource env res st).1.patents_main).Nodup := by
  unfold processResource
  repeat' split
  all_goals first
    | exact h
    | (simp only [save_patents_to_db_main]; exact h)
    | exact download_and_extract_zip_main_nodup env res st h
    | (simp only [save_patents_to_db_main]
       exact download_and_extract_zip_main_nodup env res st h)

/-- Every reachable store has pairwise-distinct non-null patent numbers in
`patents_main`. -/
theorem reachable_main_nodup {st : Store} (h : Reachable st) :
    (mainKeys st.patents_main).Nodup := by
  induction h with
  | init => exact List.nodup_nil
  | saveMain ok now data h ih => exact save_main_patents_nodup ok now data _ ih
  | saveAbstracts ok data h ih => rw [save_abstracts_main]; exact ih
  | saveClaims ok data h ih => rw [save_claims_main]; exact ih
  | saveDisclosures ok data h ih => rw [save_disclosures_main]; exact ih
  | saveParties ok data h ih => rw [save_interested_parties_main]; exact ih
  | saveIpc ok data h ih => rw [save_ipc_classifications_main]; exact ih
  | savePriority ok data h ih => rw [save_priority_claims_main]; exact ih
  | saveLegacy ok now ps h ih => rw [save_patents_to_db_main]; exact ih
  | saveDataset ok now ds h ih => rw [save_dataset_info_main]; exact ih
  | cacheFile md5hex wOk dbOk now url content h ih => rw [cache_file_main]; exact ih
  | markProcessed ok url h ih => rw [mark_file_processed_main]; exact ih
  | zipRun env res h ih => exact download_and_extract_zip_main_nodup env res _ ih
  | resourceStep env res h ih => exact processResource_main_nodup env res _ ih

theorem mainRowsFor_eq_nil_of_not_mem (t : List MainRow) (pn : String)
    (h : pn ∉ mainKeys t) : mainRowsFor t pn = [] := by
  induction t with
  | nil => rfl
  | cons q t ih =>
    rw [mainRowsFor_cons]
    cases hq : q.patent_number with
    | none =>
      rw [mainKeys_cons_none t hq] at h
      rw [if_neg (by simp)]
      exact ih h
    | some x =>
      rw [mainKeys_cons_some t hq] at h
      have hx : x ≠ pn := fun he => h (he ▸ List.mem_cons_self x _)
      have hpn : pn ∉ mainKeys t := fun he => h (List.mem_cons_of_mem _ he)
      rw [if_neg (by simp [hx])]
      exact ih hpn

theorem mainRowsFor_length_le_one (t : List MainRow) (pn : String)
    (h : (mainKeys t).Nodup) : (mainRowsFor t pn).length ≤ 1 := by
  induction t with
  | nil => simp [mainRowsFor]
  | cons q t ih =>
    rw [mainRowsFor_cons]
    cases hq : q.patent_number with
    | none =>
      rw [mainKeys_cons_none t hq] at h
      simpa [hq] using ih h
    | some x =>
      rw [mainKeys_cons_some t hq] at h
      obtain ⟨hnx, hnt⟩ := List.nodup_cons.mp h
      by_cases hx : x = pn
      · subst hx
        rw [if_pos (by simp)]
        rw [mainRowsFor_eq_nil_of_not_mem t x hnx]
        simp
      · rw [if_neg (by simp [hx])]
        exact ih hnt

theorem mainRowsFor_insertOrReplace (t : List MainRow) (r : MainRow) (pn : String)
    (hr : r.patent_number = some pn) :
    mainRowsFor (insertOrReplaceMain t r) pn = [r] := by
  unfold insertOrReplaceMain mainRowsFor
  rw [List.filter_append]
  have h1 : ((t.filter fun q => !textKeyConflict q.patent_number r.patent_number).filter
      fun q => q.patent_number == some pn) = [] := by
    rw [List.filter_filter]
    refine List.filter_eq_nil_iff.mpr fun a _ => ?_
    rw [hr]
    cases ha : a.patent_number with
    | none => simp [textKeyConflict]
    | some x =>
      by_cases hx : x = pn
      · subst hx; simp [textKeyConflict]
      · simp [textKeyConflict, hx]
  rw [h1]
  simp [hr]

/-- C4: on every reachable store, `patents_main` holds at most one row per
patent number, and re-ingesting a record with an existing patent number via
`save_main_patents` wholly replaces that row (last-writer-wins): the rows for
that number become exactly the one new row, whose stored English title is the
incoming record's title — no second row is created. -/
theorem c4_main_unique_and_replace :
    (∀ st : Store, Reachable st → ∀ pn : String,
        (mainRowsFor st.patents_main pn).length ≤ 1) ∧
    (∀ (st : Store) (now : String) (r : Record) (pn : String), Reachable st →
        recGet r patentNumberLabel = some pn →
        mainRowsFor (save_main_patents true now [r] st).patents_main pn
            = [mainRowOfRecord now r] ∧
        (mainRowOfRecord now r).title_english
            = recGet r "Application/Patent Title English - Demande/Titre anglais du brevet") := by
  constructor
  · intro st h pn
    exact mainRowsFor_length_le_one _ _ (reachable_main_nodup h)
  · intro st now r pn h hr
    refine ⟨?_, rfl⟩
    have ht := reachable_tables h
    unfold save_main_patents
    rw [if_neg (by simp)]
    rw [if_pos (by rw [ht]; decide)]
    show mainRowsFor (insertOrReplaceMain st.patents_main (mainRowOfRecord now r)) pn = _
    exact mainRowsFor_insertOrReplace _ _ _ (by rw [show (mainRowOfRecord now r).patent_number = recGet r patentNumberLabel from rfl, hr])

/-- C4 witness: ingest `CA1234567` titled `WIDGET`, re-ingest it titled
`IMPROVED WIDGET`: at most one row before, and afterwards exactly the one
replaced row. -/
theorem c4_main_unique_and_replace_witness :
    (mainRowsFor (save_main_patents true "t1" [mainRecA] initStore).patents_main "CA1234567").length ≤ 1 ∧
    mainRowsFor (save_main_patents true "t2" [mainRecB]
        (save_main_patents true "t1" [mainRecA] initStore)).patents_main "CA1234567"
      = [mainRowOfRecord "t2" mainRecB] :=
  ⟨c4_main_unique_and_replace.1 _ (Reachable.saveMain true "t1" [mainRecA] Reachable.init) "CA1234567",
   (c4_main_unique_and_replace.2 _ "t2" mainRecB "CA1234567"
      (Reachable.saveMain true "t1" [mainRecA] Reachable.init) rfl).1⟩

/-- C1 (schema defect): the six child-table save methods use
`INSERT OR REPLACE`, but the child tables' only PRIMARY KEY is the
AUTOINCREMENT `id` the inserts omit, so nothing can ever conflict: saving the
same logical row twice leaves two rows (identical in every data column,
differing only in `id`) instead of one.  Evaluated here at a concrete
single-row batch against the fresh store, for all six kinds. -/
theorem c1_child_saves_duplicate_rows :
    (save_claims true [childRec] initStore).patent_claims.rows.length = 1 ∧
    (save_claims true [childRec] (save_claims true [childRec] initStore)).patent_claims.rows.length = 2 ∧
    ((save_claims true [childRec] (save_claims true [childRec] initStore)).patent_claims.rows.map
        ChildRow.fields = [claimFields childRec, claimFields childRec]) ∧
    (save_abstracts true [childRec] (save_abstracts true [childRec] initStore)).patent_abstracts.rows.length = 2 ∧
    (save_disclosures true [childRec] (save_disclosures true [childRec] initStore)).patent_disclosures.rows.length = 2 ∧
    (save_interested_parties true [childRec]
        (save_interested_parties true [childRec] initStore)).patent_interested_parties.rows.length = 2 ∧
    (save_ipc_classifications true [childRec]
        (save_ipc_classifications true [childRec] initStore)).patent_ipc_classifications.rows.length = 2 ∧
    (save_priority_claims true [childRec]
        (save_priority_claims true [childRec] initStore)).patent_priority_claims.rows.length = 2 :=
  ⟨rfl, rfl, rfl, rfl, rfl, rfl, rfl, rfl⟩

/-- C5 counterexample: when the strict reader raises after emitting one row and
the quote-all fallback then succeeds with the full three rows, `parse_csv_data`
returns four rows — the stale row from the failed strategy is kept, so the
result is not "exactly the rows produced by the successful fallback". -/
theorem c5_failed_strategy_rows_accumulate :
    parse_csv_data (fun _ => CsvOutcome.err [rowX]) (fun _ => CsvOutcome.ok [rowX, rowY, rowZ])
        (fun _ => CsvOutcome.err []) "CA0000001|x\nCA0000002|y" = [rowX, rowX, rowY, rowZ] ∧
    [rowX, rowX, rowY, rowZ] ≠ [rowX, rowY, rowZ] := by
  exact ⟨rfl, by decide⟩

/-- C5 (amended): the three strategies are tried in the fixed order, the first
one that completes without a structural error supplying the tail of the
result; the rows a failed strategy emitted before its error are kept in front,
so the result equals exactly the successful fallback's rows only when every
failed strategy failed before emitting any row. -/
theorem c5_fallback_order_and_rows (rA rB rC : String → CsvOutcome) (text : String) :
    (∀ rows, rA text = CsvOutcome.ok rows → parse_csv_data rA rB rC text = rows) ∧
    (∀ p1 rows, rA text = CsvOutcome.err p1 → rB text = CsvOutcome.ok rows →
        parse_csv_data rA rB rC text = p1 ++ rows) ∧
    (∀ rows, rA text = CsvOutcome.err [] → rB text = CsvOutcome.ok rows →
        parse_csv_data rA rB rC text = rows) ∧
    (∀ p1 p2 rows, rA text = CsvOutcome.err p1 → rB text = CsvOutcome.err p2 →
        rC text = CsvOutcome.ok rows → parse_csv_data rA rB rC text = p1 ++ p2 ++ rows) := by
  refine ⟨?_, ?_, ?_, ?_⟩
  · intro rows hA
    unfold parse_csv_data
    rw [hA]
  · intro p1 rows hA hB
    unfold parse_csv_data
    rw [hA, hB]
  · intro rows hA hB
    unfold parse_csv_data
    rw [hA, hB]
    simp
  · intro p1 p2 rows hA hB hC
    unfold parse_csv_data
    rw [hA, hB, hC]

/-- C5 witness: a payload whose strict parse fails before any row and whose
quote-all fallback yields three rows parses to exactly those three rows. -/
theorem c5_fallback_order_and_rows_witness :
    parse_csv_data (fun _ => CsvOutcome.err []) (fun _ => CsvOutcome.ok [rowX, rowY, rowZ])
        (fun _ => CsvOutcome.err []) "CA0000001|x" = [rowX, rowY, rowZ] :=
  (c5_fallback_order_and_rows _ _ _ "CA0000001|x").2.2.1 [rowX, rowY, rowZ] rfl rfl

/-- C6 counterexample: two distinct source URLs whose basenames coincide (and
carry a recognized extension) are mapped to the same local blob path — the
digest never enters — so the cache does not keep one blob per distinct source
URL. -/
theorem c6_distinct_urls_share_blob_path :
    ("https://a.example.ca/2024/PT_main.zip" : String) ≠ "https://b.example.ca/2023/PT_main.zip" ∧
    get_cached_file_path md5stub "https://a.example.ca/2024/PT_main.zip"
      = get_cached_file_path md5stub "https://b.example.ca/2023/PT_main.zip" := by
  exact ⟨by decide, rfl⟩

theorem recognizedExt_ne_empty {s : String} (h : recognizedExt s = true) : (s == "") = false := by
  cases hs : (s == "") with
  | false => rfl
  | true =>
    have : s = "" := by simpa using hs
    subst this
    exact absurd h (by decide)

/-- C6 (amended): the URL-to-path mapping is a stable function of the URL
alone: a basename without a recognized extension yields the URL's MD5 digest
(a hash of the URL, not of the content) plus the default `.zip` extension; a
recognized basename is kept, so any two URLs sharing such a basename share one
blob path. -/
theorem c6_cache_naming (md5hex : String → String) (url : String) :
    (recognizedExt (basenameOf url) = false →
        get_cached_file_path md5hex url = cacheDir ++ "/" ++ (md5hex url ++ ".zip")) ∧
    (recognizedExt (basenameOf url) = true →
        get_cached_file_path md5hex url = cacheDir ++ "/" ++ basenameOf url) ∧
    (recognizedExt (basenameOf url) = true → ∀ url2 : String,
        basenameOf url2 = basenameOf url →
        get_cached_file_path md5hex url2 = get_cached_file_path md5hex url) := by
  refine ⟨?_, ?_, ?_⟩
  · intro h
    simp [get_cached_file_path, h]
  · intro h
    simp [get_cached_file_path, h, recognizedExt_ne_empty h]
  · intro h url2 heq
    simp [get_cached_file_path, heq, h, recognizedExt_ne_empty h]

/-- C6 witness: an extension-less URL gets the digest-derived name; a `.zip`
basename is kept. -/
theorem c6_cache_naming_witness :
    get_cached_file_path md5stub "https://x.example.ca/download?id=7"
      = cacheDir ++ "/" ++ (md5stub "https://x.example.ca/download?id=7" ++ ".zip") ∧
    get_cached_file_path md5stub "https://a.example.ca/2024/PT_main.zip"
      = cacheDir ++ "/" ++ basenameOf "https://a.example.ca/2024/PT_main.zip" :=
  ⟨(c6_cache_naming md5stub _).1 (by decide), (c6_cache_naming md5stub _).2.1 (by decide)⟩

/-- C8: `determine_file_type` returns `"unknown"` exactly on filenames that
contain (case-insensitively) none of the seven fixed tokens, and on a filename
containing exactly one of the tokens it returns that token's record kind ("the
corresponding kind" is only well defined when one token occurs; when several
occur, the source's fixed test order picks the first). -/
theorem c8_determine_file_type_tokens :
    (∀ filename : String,
        (∀ p ∈ tokenKinds, containsSub (toLowerStr filename) p.1 = false) →
        determine_file_type filename = "unknown") ∧
    (∀ (filename : String) (p : String × String), p ∈ tokenKinds →
        containsSub (toLowerStr filename) p.1 = true →
        (∀ q ∈ tokenKinds, q.1 ≠ p.1 → containsSub (toLowerStr filename) q.1 = false) →
        determine_file_type filename = p.2) := by
  constructor
  · intro f h
    have h1 := h ("pt_main", "main") (by decide)
    have h2 := h ("pt_abstract", "abstract") (by decide)
    have h3 := h ("pt_claim", "claim") (by decide)
    have h4 := h ("pt_disclosure", "disclosure") (by decide)
    have h5 := h ("pt_interested_party", "interested_party") (by decide)
    have h6 := h ("pt_ipc_classification", "ipc_classification") (by decide)
    have h7 := h ("pt_priority_claim", "priority_claim") (by decide)
    simp only at h1 h2 h3 h4 h5 h6 h7
    simp [determine_file_type, h1, h2, h3, h4, h5, h6, h7]
  · intro f p hp hpos huni
    simp only [tokenKinds, List.mem_cons, List.not_mem_nil, or_false] at hp
    have u1 := fun hne => huni ("pt_main", "main") (by decide) hne
    have u2 := fun hne => huni ("pt_abstract", "abstract") (by decide) hne
    have u3 := fun hne => huni ("pt_claim", "claim") (by decide) hne
    have u4 := fun hne => huni ("pt_disclosure", "disclosure") (by decide) hne
    have u5 := fun hne => huni ("pt_interested_party", "interested_party") (by decide) hne
    have u6 := fun hne => huni ("pt_ipc_classification", "ipc_classification") (by decide) hne
    rcases hp with h | h | h | h | h | h | h
    all_goals subst h
    all_goals simp only at hpos u1 u2 u3 u4 u5 u6
    · simp [determine_file_type, hpos]
    · simp [determine_file_type, hpos, u1 (by decide)]
    · simp [determine_file_type, hpos, u1 (by decide), u2 (by decide)]
    · simp [determine_file_type, hpos, u1 (by decide), u2 (by decide), u3 (by decide)]
    · simp [determine_file_type, hpos, u1 (by decide), u2 (by decide), u3 (by decide),
        u4 (by decide)]
    · simp [determine_file_type, hpos, u1 (by decide), u2 (by decide), u3 (by decide),
        u4 (by decide), u5 (by decide)]
    · simp [determine_file_type, hpos, u1 (by decide), u2 (by decide), u3 (by decide),
        u4 (by decide), u5 (by decide), u6 (by decide)]

/-- C8 witness: a claim-kind filename maps to `"claim"`; a tokenless filename
maps to `"unknown"`. -/
theorem c8_determine_file_type_tokens_witness :
    determine_file_type "PT_Claim_2024_week1.csv" = "claim" ∧
    determine_file_type "readme.txt" = "unknown" :=
  ⟨c8_determine_file_type_tokens.2 "PT_Claim_2024_week1.csv" ("pt_claim", "claim")
      (by decide) (by decide) (by decide),
   c8_determine_file_type_tokens.1 "readme.txt" (by decide)⟩

/-! ### C7: `file_cache` upsert -/

theorem cacheUrls_nodup_insertOrReplace (t : List CacheEntry) (e : CacheEntry)
    (h : (cacheUrls t).Nodup) : (cacheUrls (insertOrReplaceCache t e)).Nodup := by
  unfold insertOrReplaceCache
  unfold cacheUrls at *
  rw [List.map_append, List.nodup_append]
  refine ⟨((List.filter_sublist t).map _).nodup h, by simp, ?_⟩
  intro a ha hb
  simp only [List.map_cons, List.map_nil, List.mem_singleton] at hb
  subst hb
  obtain ⟨row, hmem, hurl⟩ := List.mem_map.mp ha
  have hpred := (List.mem_filter.mp hmem).2
  rw [hurl] at hpred
  simp at hpred

theorem mark_file_processed_cacheUrls (ok : Bool) (url : String) (st : Store) :
    cacheUrls (mark_file_processed ok url st).file_cache = cacheUrls st.file_cache := by
  unfold mark_file_processed
  split
  · unfold cacheUrls
    rw [List.map_map]
    refine List.map_congr_left fun e _ => ?_
    show (if (e.url == url) = true then
        { e with processed := true } else e).url = e.url
    split <;> rfl
  · rfl

theorem cache_file_cacheUrls_nodup (md5hex : String → String) (writeOk dbOk : Bool)
    (now url content : String) (st : Store)
    (h : (cacheUrls st.file_cache).Nodup) :
    (cacheUrls (cache_file md5hex writeOk dbOk now url content st).2.file_cache).Nodup := by
  unfold cache_file
  split
  · split
    · exact cacheUrls_nodup_insertOrReplace _ _ h
    · exact h
  · exact h

theorem zipProcessLocal_cache_nodup (env : Env) (st : Store) (url lp : String) (d : Nat)
    (h : (cacheUrls st.file_cache).Nodup) :
    (cacheUrls (zipProcessLocal env st url lp d).st.file_cache).Nodup := by
  unfold zipProcessLocal
  repeat' split
  all_goals first
    | exact h
    | (rw [mark_file_processed_cacheUrls, zipLoop_cache]; exact h)
    | (rw [show ((List.foldl (zipEntryStep env) { st := st, patents := [], saveIdx := 0 } _).st.file_cache)
          = st.file_cache from zipLoop_cache ..]; exact h)

theorem download_and_extract_zip_cache_nodup (env : Env) (res : Resource) (st : Store)
    (h : (cacheUrls st.file_cache).Nodup) :
    (cacheUrls (download_and_extract_zip env res st).st.file_cache).Nodup := by
  unfold download_and_extract_zip
  repeat' split
  all_goals first
    | exact h
    | exact zipProcessLocal_cache_nodup env _ _ _ _ h
    | exact zipProcessLocal_cache_nodup env _ _ _ _ (cache_file_cacheUrls_nodup _ _ _ _ _ _ _ h)
    | exact cache_file_cacheUrls_nodup _ _ _ _ _ _ _ h

theorem processResource_cache_nodup (env : Env) (res : Resource) (st : Store)
    (h : (cacheUrls st.file_cache).Nodup) :
    (cacheUrls (processResource env res st).1.file_cache).Nodup := by
  unfold processResource
  repeat' split
  all_goals first
    | exact h
    | (simp only [save_patents_to_db_cache]; exact h)
    | exact download_and_extract_zip_cache_nodup env res st h
    | (simp only [save_patents_to_db_cache]
       exact download_and_extract_zip_cache_nodup env res st h)

/-- Every reachable store has pairwise-distinct urls in `file_cache`. -/
theorem reachable_cacheUrls_nodup {st : Store} (h : Reachable st) :
    (cacheUrls st.file_cache).Nodup := by
  induction h with
  | init => exact List.nodup_nil
  | saveMain ok now data h ih => rw [save_main_patents_cache]; exact ih
  | saveAbstracts ok data h ih => rw [save_abstracts_cache]; exact ih
  | saveClaims ok data h ih => rw [save_claims_cache]; exact ih
  | saveDisclosures ok data h ih => rw [save_disclosures_cache]; exact ih
  | saveParties ok data h ih => rw [save_interested_parties_cache]; exact ih
  | saveIpc ok data h ih => rw [save_ipc_classifications_cache]; exact ih
  | savePriority ok data h ih => rw [save_priority_claims_cache]; exact ih
  | saveLegacy ok now ps h ih => rw [save_patents_to_db_cache]; exact ih
  | saveDataset ok now ds h ih => rw [save_dataset_info_cache]; exact ih
  | cacheFile md5hex wOk dbOk now url content h ih =>
      exact cache_file_cacheUrls_nodup md5hex wOk dbOk now url content _ ih
  | markProcessed ok url h ih => rw [mark_file_processed_cacheUrls]; exact ih
  | zipRun env res h ih => exact download_and_extract_zip_cache_nodup env res _ ih
  | resourceStep env res h ih => exact processResource_cache_nodup env res _ ih

theorem find?_insertOrReplaceCache (t : List CacheEntry) (e : CacheEntry) :
    (insertOrReplaceCache t e).find? (fun q => q.url == e.url) = some e := by
  unfold insertOrReplaceCache
  rw [List.find?_append]
  have h1 : (t.filter fun q => !(q.url == e.url)).find? (fun q => q.url == e.url) = none := by
    refine List.find?_eq_none.mpr fun x hx => ?_
    have hp := (List.mem_filter.mp hx).2
    simp at hp
    simp [hp]
  rw [h1]
  simp

theorem entriesFor_insertOrReplaceCache (t : List CacheEntry) (e : CacheEntry) :
    entriesFor (insertOrReplaceCache t e) e.url = [e] := by
  unfold insertOrReplaceCache entriesFor
  rw [List.filter_append]
  have h1 : ((t.filter fun q => !(q.url == e.url)).filter fun q => q.url == e.url) = [] := by
    rw [List.filter_filter]
    refine List.filter_eq_nil_iff.mpr fun a _ => ?_
    by_cases ha : (a.url == e.url) = true <;> simp [ha]
  rw [h1]
  simp

theorem fsRead_fsWrite (files : List (String × String)) (p c : String) :
    fsRead (fsWrite files p c) p = some c := by
  unfold fsRead fsWrite
  rw [List.find?_append]
  have h1 : (files.filter fun kv => !(kv.1 == p)).find? (fun kv => kv.1 == p) = none := by
    refine List.find?_eq_none.mpr fun x hx => ?_
    have hp := (List.mem_filter.mp hx).2
    simp at hp
    simp [hp]
  rw [h1]
  simp

/-- C7: on every reachable store there is at most one `file_cache` entry per
url, and a successful `cache_file(url, content)` stores the bytes at the
derived path it returns and upserts the one cache row for that url with
`processed = false` (so `is_file_processed(url)` is false afterwards); any
prior row and blob for the url are overwritten, never duplicated. -/
theorem c7_cache_file_upsert :
    (∀ st : Store, Reachable st → (cacheUrls st.file_cache).Nodup) ∧
    (∀ (md5hex : String → String) (now url content : String) (st : Store),
        (cache_file md5hex true true now url content st).1 = get_cached_file_path md5hex url ∧
        is_file_processed (cache_file md5hex true true now url content st).2 url = false ∧
        fsRead (cache_file md5hex true true now url content st).2.files
            (cache_file md5hex true true now url content st).1 = some content ∧
        entriesFor (cache_file md5hex true true now url content st).2.file_cache url =
          [{ url := url, local_path := get_cached_file_path md5hex url, downloaded_at := now,
             file_size := content.length, processed := false }]) := by
  constructor
  · intro st h
    exact reachable_cacheUrls_nodup h
  · intro md5hex now url content st
    have hcf : cache_file md5hex true true now url content st =
        (get_cached_file_path md5hex url,
         { st with
             files := fsWrite st.files (get_cached_file_path md5hex url) content,
             file_cache := insertOrReplaceCache st.file_cache
               { url := url, local_path := get_cached_file_path md5hex url,
                 downloaded_at := now, file_size := content.length, processed := false } }) := rfl
    rw [hcf]
    refine ⟨rfl, ?_, fsRead_fsWrite _ _ _, entriesFor_insertOrReplaceCache _ _⟩
    show is_file_processed { st with
        files := fsWrite st.files (get_cached_file_path md5hex url) content,
        file_cache := insertOrReplaceCache st.file_cache
          { url := url, local_path := get_cached_file_path md5hex url,
            downloaded_at := now, file_size := content.length, processed := false } } url = false
    unfold is_file_processed
    rw [show ({ st with
        files := fsWrite st.files (get_cached_file_path md5hex url) content,
        file_cache := insertOrReplaceCache st.file_cache
          { url := url, local_path := get_cached_file_path md5hex url,
            downloaded_at := now, file_size := content.length, processed := false } } : Store).file_cache
      = insertOrReplaceCache st.file_cache
          { url := url, local_path := get_cached_file_path md5hex url,
            downloaded_at := now, file_size := content.length, processed := false } from rfl]
    rw [find?_insertOrReplaceCache st.file_cache
      { url := url, local_path := get_cached_file_path md5hex url,
        downloaded_at := now, file_size := content.length, processed := false }]

/-- C7 witness: caching a blob for a url that already has a cache row leaves
exactly one (fresh, unprocessed) row for it. -/
theorem c7_cache_file_upsert_witness :
    (cache_file md5stub true true "t2" "https://a.example.ca/2024/PT_main.zip" "NEWBYTES"
        (cache_file md5stub true true "t1" "https://a.example.ca/2024/PT_main.zip" "OLDBYTES"
          initStore).2).1 = get_cached_file_path md5stub "https://a.example.ca/2024/PT_main.zip" ∧
    is_file_processed (cache_file md5stub true true "t2" "https://a.example.ca/2024/PT_main.zip"
        "NEWBYTES" (cache_file md5stub true true "t1" "https://a.example.ca/2024/PT_main.zip"
          "OLDBYTES" initStore).2).2 "https://a.example.ca/2024/PT_main.zip" = false ∧
    entriesFor (cache_file md5stub true true "t2" "https://a.example.ca/2024/PT_main.zip"
          "NEWBYTES" (cache_file md5stub true true "t1" "https://a.example.ca/2024/PT_main.zip"
            "OLDBYTES" initStore).2).2.file_cache "https://a.example.ca/2024/PT_main.zip" =
      [{ url := "https://a.example.ca/2024/PT_main.zip",
         local_path := get_cached_file_path md5stub "https://a.example.ca/2024/PT_main.zip",
         downloaded_at := "t2", file_size := ("NEWBYTES" : String).length, processed := false }] := by
  obtain ⟨h1, h2, _h3, h4⟩ := c7_cache_file_upsert.2 md5stub "t2"
    "https://a.example.ca/2024/PT_main.zip" "NEWBYTES"
    (cache_file md5stub true true "t1" "https://a.example.ca/2024/PT_main.zip" "OLDBYTES" initStore).2
  exact ⟨h1, h2, h4⟩

/-! ### C3: processed resources are skipped; one download per ZIP resource -/

theorem zip_skip_processed (env : Env) (res : Resource) (st : Store) (url : String)
    (hu : res.url = some url) (hp : is_file_processed st url = true) :
    download_and_extract_zip env res st = ⟨[], st, 0⟩ := by
  unfold download_and_extract_zip
  simp only [hu, hp]
  rfl

theorem parse_skip_processed (env : Env) (res : Resource) (st : Store) (url : String)
    (hu : res.url = some url) (hp : is_file_processed st url = true) :
    download_and_parse_resource env res st = ([], 0) := by
  unfold download_and_parse_resource
  simp only [hu, hp]
  rfl

theorem zipProcessLocal_downloads (env : Env) (st : Store) (url lp : String) (d : Nat) :
    (zipProcessLocal env st url lp d).downloads = d := by
  unfold zipProcessLocal
  repeat' split
  all_goals rfl

theorem cacheJoin_ne_empty (s : String) : ((cacheDir ++ "/" ++ s) == "") = false := by
  refine beq_eq_false_iff_ne.mpr fun h => ?_
  have hlen := congrArg String.length h
  rw [String.length_append, String.length_append] at hlen
  have h1 : ("" : String).length = 0 := rfl
  have h2 : cacheDir.length = 12 := rfl
  have h3 : ("/" : String).length = 1 := rfl
  omega

theorem get_cached_file_path_ne_empty (m : String → String) (u : String) :
    (get_cached_file_path m u == "") = false :=
  cacheJoin_ne_empty _

theorem is_file_processed_mark (st : Store) (url : String) (e : CacheEntry)
    (he : st.file_cache.find? (fun q => q.url == url) = some e) :
    is_file_processed (mark_file_processed true url st) url = true := by
  unfold mark_file_processed is_file_processed
  rw [if_pos rfl]
  have hf : ((fun q : CacheEntry => q.url == url) ∘ fun q : CacheEntry =>
      if (q.url == url) = true then { q with processed := true } else q)
      = fun q : CacheEntry => q.url == url := by
    funext q
    show ((if (q.url == url) = true then { q with processed := true } else q).url == url)
      = (q.url == url)
    split
    · next hcond => simp [hcond]
    · rfl
  rw [List.find?_map, hf, he]
  have hp := List.find?_some he
  show (if (e.url == url) = true then { e with processed := true } else e).processed = true
  rw [if_pos hp]

theorem zip_first_run (env : Env) (res : Resource) (st : Store) (url : String)
    (resp : NetResponse) (entries : List ZipEntryFile)
    (hu : res.url = some url)
    (hp : is_file_processed st url = false)
    (hc : is_file_cached st url = none)
    (hn : env.net url = some resp)
    (hz : (containsSub resp.content_type "zip" || strEndsWith url ".zip") = true)
    (hw : env.cacheWriteOk = true) (hd : env.cacheDbOk = true) (hm : env.markOk = true)
    (hpar : env.zipParse resp.content = some entries) :
    (download_and_extract_zip env res st).downloads = 1 ∧
    is_file_processed (download_and_extract_zip env res st).st url = true := by
  have hcond : (!containsSub resp.content_type "zip" && !strEndsWith url ".zip") = false := by
    rw [← Bool.not_or, hz]
    rfl
  have hcf : cache_file env.md5hex env.cacheWriteOk env.cacheDbOk env.now url resp.content st =
      (get_cached_file_path env.md5hex url,
       { st with
           files := fsWrite st.files (get_cached_file_path env.md5hex url) resp.content,
           file_cache := insertOrReplaceCache st.file_cache
             { url := url, local_path := get_cached_file_path env.md5hex url,
               downloaded_at := env.now, file_size := resp.content.length, processed := false } }) := by
    rw [hw, hd]
    rfl
  have hrun : download_and_extract_zip env res st =
      zipProcessLocal env
        ({ st with
            files := fsWrite st.files (get_cached_file_path env.md5hex url) resp.content,
            file_cache := insertOrReplaceCache st.file_cache
              { url := url, local_path := get_cached_file_path env.md5hex url,
                downloaded_at := env.now, file_size := resp.content.length, processed := false } })
        url (get_cached_file_path env.md5hex url) 1 := by
    unfold download_and_extract_zip
    simp only [hu, hp, hc, hn, hcond, hcf, get_cached_file_path_ne_empty,
      Bool.false_eq_true, if_false]
  rw [hrun]
  refine ⟨zipProcessLocal_downloads .., ?_⟩
  unfold zipProcessLocal
  simp only [fsRead_fsWrite, hpar, hm, get_cached_file_path_ne_empty, Bool.not_false, if_true]
  refine is_file_processed_mark _ _
    { url := url, local_path := get_cached_file_path env.md5hex url,
      downloaded_at := env.now, file_size := resp.content.length, processed := false } ?_
  rw [zipLoop_cache]
  exact find?_insertOrReplaceCache st.file_cache
    { url := url, local_path := get_cached_file_path env.md5hex url,
      downloaded_at := env.now, file_size := resp.content.length, processed := false }

/-- C3 (amended): a resource whose URL is flagged processed is skipped entirely
by both `download_and_extract_zip` and `download_and_parse_resource`: no
network GET, no parse, an empty record list, and an untouched store.  For a
ZIP resource, a successful first run issues exactly one GET and flips the
flag, so a second run on the unchanged URL is skipped and the two runs perform
exactly one download in total.  (`download_and_parse_resource` never caches or
marks its resource, so for non-ZIP resources the second run downloads again —
see the counterexample.) -/
theorem c3_processed_skip_and_single_download :
    (∀ (env : Env) (res : Resource) (st : Store) (url : String),
        res.url = some url → is_file_processed st url = true →
        download_and_extract_zip env res st = ⟨[], st, 0⟩ ∧
        download_and_parse_resource env res st = ([], 0)) ∧
    (∀ (env : Env) (res : Resource) (st : Store) (url : String)
        (resp : NetResponse) (entries : List ZipEntryFile),
        res.url = some url →
        is_file_processed st url = false →
        is_file_cached st url = none →
        env.net url = some resp →
        (containsSub resp.content_type "zip" || strEndsWith url ".zip") = true →
        env.cacheWriteOk = true → env.cacheDbOk = true → env.markOk = true →
        env.zipParse resp.content = some entries →
        (download_and_extract_zip env res st).downloads = 1 ∧
        download_and_extract_zip env res (download_and_extract_zip env res st).st
            = ⟨[], (download_and_extract_zip env res st).st, 0⟩ ∧
        (download_and_extract_zip env res st).downloads +
            (download_and_extract_zip env res
              (download_and_extract_zip env res st).st).downloads = 1) := by
  constructor
  · intro env res st url hu hp
    exact ⟨zip_skip_processed env res st url hu hp, parse_skip_processed env res st url hu hp⟩
  · intro env res st url resp entries hu hp hc hn hz hw hd hm hpar
    obtain ⟨h1, h2⟩ := zip_first_run env res st url resp entries hu hp hc hn hz hw hd hm hpar
    have hskip := zip_skip_processed env res (download_and_extract_zip env res st).st url hu h2
    exact ⟨h1, hskip, by rw [h1, hskip]; rfl⟩

set_option maxRecDepth 8192 in
/-- C3 witness: a concrete ZIP resource run against the fresh store downloads
once; the immediate re-run is skipped via the processed flag. -/
theorem c3_processed_skip_and_single_download_witness :
    (download_and_extract_zip (mkZipEnv fun _ => true) zipRes initStore).downloads = 1 ∧
    download_and_extract_zip (mkZipEnv fun _ => true) zipRes
        (download_and_extract_zip (mkZipEnv fun _ => true) zipRes initStore).st
      = ⟨[], (download_and_extract_zip (mkZipEnv fun _ => true) zipRes initStore).st, 0⟩ := by
  have h := c3_processed_skip_and_single_download.2 (mkZipEnv fun _ => true) zipRes initStore
    "https://opic.example.ca/archives/PT_archive_2024.zip"
    { content := "PKzipbytes", content_type := "application/zip",
      rawBinaryGuard := true, decoded := none }
    [{ name := "PT_claim_2024.csv", content := "claims csv text" }]
    rfl rfl rfl rfl (by decide) rfl rfl rfl rfl
  exact ⟨h.1, h.2.1⟩

set_option maxRecDepth 8192 in
/-- C3 counterexample: a flat CSV resource is neither cached nor marked
processed by `download_and_parse_resource`, so running the pipeline's
per-resource step twice on the unchanged URL performs two network downloads,
not one. -/
theorem c3_nonzip_resource_downloads_twice :
    is_file_processed initStore "https://opic.example.ca/exports/patents.csv" = false ∧
    (processResource csvEnv csvRes initStore).2 = 1 ∧
    (processResource csvEnv csvRes initStore).1 = initStore ∧
    (processResource csvEnv csvRes (processResource csvEnv csvRes initStore).1).2 = 1 ∧
    (processResource csvEnv csvRes initStore).2 +
        (processResource csvEnv csvRes (processResource csvEnv csvRes initStore).1).2 ≠ 1 := by
  refine ⟨rfl, rfl, rfl, rfl, ?_⟩
  decide

/-! ### C2: when the processed flag flips -/

theorem mark_file_processed_claims (ok : Bool) (url : String) (st : Store) :
    (mark_file_processed ok url st).patent_claims = st.patent_claims := by
  unfold mark_file_processed
  split <;> rfl

theorem zip_run_eq (env : Env) (res : Resource) (st : Store) (url : String) (resp : NetResponse)
    (hu : res.url = some url)
    (hp : is_file_processed st url = false)
    (hc : is_file_cached st url = none)
    (hn : env.net url = some resp)
    (hz : (containsSub resp.content_type "zip" || strEndsWith url ".zip") = true)
    (hw : env.cacheWriteOk = true) (hd : env.cacheDbOk = true) :
    download_and_extract_zip env res st =
      zipProcessLocal env
        ({ st with
            files := fsWrite st.files (get_cached_file_path env.md5hex url) resp.content,
            file_cache := insertOrReplaceCache st.file_cache
              { url := url, local_path := get_cached_file_path env.md5hex url,
                downloaded_at := env.now, file_size := resp.content.length, processed := false } })
        url (get_cached_file_path env.md5hex url) 1 := by
  have hcond : (!containsSub resp.content_type "zip" && !strEndsWith url ".zip") = false := by
    rw [← Bool.not_or, hz]
    rfl
  have hcf : cache_file env.md5hex env.cacheWriteOk env.cacheDbOk env.now url resp.content st =
      (get_cached_file_path env.md5hex url,
       { st with
           files := fsWrite st.files (get_cached_file_path env.md5hex url) resp.content,
           file_cache := insertOrReplaceCache st.file_cache
             { url := url, local_path := get_cached_file_path env.md5hex url,
               downloaded_at := env.now, file_size := resp.content.length, processed := false } }) := by
    rw [hw, hd]
    rfl
  unfold download_and_extract_zip
  simp only [hu, hp, hc, hn, hcond, hcf, get_cached_file_path_ne_empty,
    Bool.false_eq_true, if_false]

theorem zipEntryRoute_claim (env : Env) (acc : LoopAcc) (rows : List Record) (name : String)
    (h1 : strEndsWith name "/" = false)
    (h2 : strEndsWith (toLowerStr name) ".csv" = true)
    (h3 : rows.isEmpty = false) :
    zipEntryRoute env acc "claim" rows name =
      { acc with st := save_claims (env.saveOk acc.saveIdx) rows acc.st,
                 saveIdx := acc.saveIdx + 1 } := by
  unfold zipEntryRoute
  simp [h1, h2, h3]

theorem insert_fold_fields (extract : Record → List (Option String))
    (data : List Record) (t : ChildTable) :
    ((data.foldl (fun t r => insertChildRow t (extract r)) t).rows.map ChildRow.fields)
      = t.rows.map ChildRow.fields ++ data.map extract := by
  induction data generalizing t with
  | nil => simp
  | cons r rest ih =>
    rw [List.foldl_cons, ih]
    simp [insertChildRow]

/-- C2 (amended): the processed flag is set only at the very end of
`download_and_extract_zip`, after every inner file's records have been handed
to its save method; a save call's failure is caught inside the save method and
only logged, so the flag can be true while that call's records are absent from
the store (see the counterexample).  When the save call succeeds, the records
are committed before the flag flips: for a ZIP with one claim-kind file, the
run appends exactly the parsed rows to `patent_claims` and sets the flag. -/
theorem c2_processed_after_all_saves :
    ∀ (env : Env) (res : Resource) (st : Store) (url : String) (resp : NetResponse)
      (e : ZipEntryFile) (rows : List Record),
      res.url = some url →
      is_file_processed st url = false →
      is_file_cached st url = none →
      env.net url = some resp →
      (containsSub resp.content_type "zip" || strEndsWith url ".zip") = true →
      env.cacheWriteOk = true → env.cacheDbOk = true → env.markOk = true →
      env.zipParse resp.content = some [e] →
      strEndsWith e.name "/" = false →
      strEndsWith (toLowerStr e.name) ".csv" = true →
      determine_file_type e.name = "claim" →
      parse_csv_data env.csvA env.csvB env.csvC e.content = rows →
      rows.isEmpty = false →
      env.saveOk 0 = true →
      st.tables = init_database_tables →
      ((download_and_extract_zip env res st).st.patent_claims.rows.map ChildRow.fields
          = st.patent_claims.rows.map ChildRow.fields ++ rows.map claimFields) ∧
      is_file_processed (download_and_extract_zip env res st).st url = true := by
  intro env res st url resp e rows hu hp hc hn hz hw hd hm hpar hn1 hn2 hft hpr hne hsv htab
  rw [zip_run_eq env res st url resp hu hp hc hn hz hw hd]
  unfold zipProcessLocal
  simp only [fsRead_fsWrite, hpar, hm, get_cached_file_path_ne_empty, Bool.not_false, if_true]
  rw [List.foldl_cons, List.foldl_nil]
  unfold zipEntryStep
  rw [hft, hpr]
  rw [zipEntryRoute_claim env _ rows e.name hn1 hn2 hne]
  show _ ∧ is_file_processed (mark_file_processed true url
    (save_claims (env.saveOk 0) rows _)) url = true
  rw [hsv]
  constructor
  · rw [mark_file_processed_claims]
    have hcon : init_database_tables.contains "patent_claims" = true := by decide
    unfold save_claims
    simp only [hne, Bool.false_eq_true, if_false, htab, hcon, Bool.and_self, if_true]
    exact insert_fold_fields claimFields rows st.patent_claims
  · refine is_file_processed_mark _ _
      { url := url, local_path := get_cached_file_path env.md5hex url,
        downloaded_at := env.now, file_size := resp.content.length, processed := false } ?_
    rw [save_claims_cache]
    exact find?_insertOrReplaceCache st.file_cache
      { url := url, local_path := get_cached_file_path env.md5hex url,
        downloaded_at := env.now, file_size := resp.content.length, processed := false }

set_option maxRecDepth 8192 in
/-- C2 counterexample: with the claim-kind save call failing (its exception is
caught and logged inside `save_claims`), `download_and_extract_zip` still
marks the resource processed: afterwards `is_file_processed` answers true
while the parsed record of the resource was never stored. -/
theorem c2_processed_despite_failed_save :
    parse_csv_data (mkZipEnv fun _ => false).csvA (mkZipEnv fun _ => false).csvB
        (mkZipEnv fun _ => false).csvC "claims csv text" = [childRec] ∧
    is_file_processed (download_and_extract_zip (mkZipEnv fun _ => false) zipRes initStore).st
        "https://opic.example.ca/archives/PT_archive_2024.zip" = true ∧
    (download_and_extract_zip (mkZipEnv fun _ => false) zipRes initStore).st.patent_claims.rows
      = [] := by
  exact ⟨rfl, rfl, rfl⟩

set_option maxRecDepth 8192 in
/-- C2 witness: the same run with the save call succeeding commits the parsed
claim row and then sets the flag. -/
theorem c2_processed_after_all_saves_witness :
    ((download_and_extract_zip (mkZipEnv fun _ => true) zipRes initStore).st.patent_claims.rows.map
        ChildRow.fields = [claimFields childRec]) ∧
    is_file_processed (download_and_extract_zip (mkZipEnv fun _ => true) zipRes initStore).st
        "https://opic.example.ca/archives/PT_archive_2024.zip" = true := by
  have h := c2_processed_after_all_saves (mkZipEnv fun _ => true) zipRes initStore
    "https://opic.example.ca/archives/PT_archive_2024.zip"
    { content := "PKzipbytes", content_type := "application/zip",
      rawBinaryGuard := true, decoded := none }
    { name := "PT_claim_2024.csv", content := "claims csv text" } [childRec]
    rfl rfl rfl rfl (by decide) rfl rfl rfl rfl (by decide) (by decide) (by decide) rfl rfl rfl rfl
  exact ⟨by simpa using h.1, h.2⟩
